import Mathlib

/-!
# Control-plane user data of cluster-api-provider-vsphere

A shallow embedding of `pkg/cloud/vsphere/services/userdata/controlplane.go`.

* Go `string` values are Lean `String`s, that is the Go strings that are valid UTF-8;
  where the bytes matter (base64) they are the UTF-8 bytes of the string, as natural
  numbers below 256, and the encoder and decoder are defined on every list of bytes.
* A Go `int` is an `Int`; the one place that takes one, the indent width, does no
  arithmetic on it.
* A Go `error` is `Option String`: `none` is `nil`, `some msg` an error whose
  `Error()` text is `msg`.
* A Go `(string, error)` result is a pair `String × Option String`.
* A function that can panic returns `Except String _`, the panic text on the left.
* `input.Header = cloudConfigHeader` writes through the pointer the caller passed:
  the generators return the input structure as they leave it, next to their result.
-/

namespace Userdata

/-! ## Library functions the file calls -/

/-- Package `github.com/pkg/errors`: `errors.New(msg)` is an error with text `msg`. -/
def errorsNew (msg : String) : Option String := some msg

/-- Package `github.com/pkg/errors`: `errors.Wrapf(err, msg)` is `nil` for a `nil` error and
otherwise an error whose text is `msg`, a colon and a space, and the text of `err`. -/
def errorsWrapf (err : Option String) (msg : String) : Option String :=
  match err with
  | none => none
  | some cause => some (msg ++ ": " ++ cause)

/-- The loop of `strings.Split` for a separator that is not empty: the text is cut at
every occurrence of `sep`, found from the left and not overlapping. `skip` counts the
characters of a separator just found that are still to be passed over. The head of the
result is the piece being read. -/
def splitAux (sep : List Char) : Nat → List Char → List (List Char)
  | _, [] => [[]]
  | skip + 1, _ :: rest => splitAux sep skip rest
  | 0, c :: rest =>
    if sep.isPrefixOf (c :: rest) then
      [] :: splitAux sep (sep.length - 1) rest
    else
      match splitAux sep 0 rest with
      | [] => [[c]]
      | piece :: pieces => (c :: piece) :: pieces

/-- Package `strings`: `strings.Split(s, sep)`. With an empty separator the text is cut
after every character; otherwise the result has one piece more than `s` has occurrences
of `sep` (so `Split("", sep)` is the one-element list of the empty string). -/
def stringsSplit (s sep : String) : List String :=
  if sep.data = [] then s.data.map (fun c => String.mk [c])
  else (splitAux sep.data 0 s.data).map String.mk

/-- Package `strings`: `strings.Join(elems, sep)`. -/
def stringsJoin : List String → String → String
  | [], _ => ""
  | [a], _ => a
  | a :: b :: rest, sep => a ++ sep ++ stringsJoin (b :: rest) sep

/-- The text `s` written `n` times. -/
def repeatN (s : String) : Nat → String
  | 0 => ""
  | n + 1 => s ++ repeatN s n

/-- Package `strings`: `strings.Repeat(s, count)`; it panics on a negative count. (Its
other panic needs `len(s) * count` to overflow an `int`, which a `count` that is an
`int` and a one-byte `s`, the only use in this file, cannot do.) -/
def stringsRepeat (s : String) (count : Int) : Except String String :=
  if count < 0 then .error "strings: negative Repeat count"
  else .ok (repeatN s count.toNat)

/-- The bytes of a Go string: its UTF-8 encoding, each byte a number below 256. -/
def bytesOf (s : String) : List Nat :=
  s.toUTF8.data.toList.map UInt8.toNat

/-- Package `encoding/base64`: the alphabet of `StdEncoding`. -/
def encodeStd : String :=
  "ABCDEFGHIJKLMNOPQRSTUVWXYZabcdefghijklmnopqrstuvwxyz0123456789+/"

/-- Package `encoding/base64`: `StdPadding`. -/
def padChar : Char := '='

/-- The lookup `enc.encode[v]`; every index the encoder forms is masked with `0x3F`. -/
def encChar (v : Nat) : Char := encodeStd.data.getD v 'A'

/-- Package `encoding/base64`: `(*Encoding).Encode` of `StdEncoding`, three source bytes
to four characters at a time, the last one or two bytes padded. -/
def encodeBytes : List Nat → List Char
  | [] => []
  | [b0] =>
    let val := b0 <<< 16
    [encChar ((val >>> 18) &&& 0x3F), encChar ((val >>> 12) &&& 0x3F), padChar, padChar]
  | [b0, b1] =>
    let val := (b0 <<< 16) ||| (b1 <<< 8)
    [encChar ((val >>> 18) &&& 0x3F), encChar ((val >>> 12) &&& 0x3F),
      encChar ((val >>> 6) &&& 0x3F), padChar]
  | b0 :: b1 :: b2 :: rest =>
    let val := (b0 <<< 16) ||| (b1 <<< 8) ||| b2
    encChar ((val >>> 18) &&& 0x3F) :: encChar ((val >>> 12) &&& 0x3F) ::
      encChar ((val >>> 6) &&& 0x3F) :: encChar (val &&& 0x3F) :: encodeBytes rest

/-- Package `encoding/base64`: `StdEncoding.EncodeToString(src)`. -/
def EncodeToString (src : List Nat) : String := String.mk (encodeBytes src)

/-- Package `encoding/base64`: the entry of `decodeMap` for a character, its index in
the alphabet; a character outside the alphabet (the padding character too) has none. -/
def decChar (c : Char) : Option Nat :=
  let i := encodeStd.data.indexOf c
  if i < 64 then some i else none

/-- The decoder of padded standard base64 (RFC 4648, section 4) on text without line
breaks: four characters give three bytes; padding may only end the text, `xx==` giving
one byte and `xxx=` two; anything else is corrupt input. -/
def decodeQuanta : List Char → Option (List Nat)
  | [] => some []
  | a :: b :: c :: d :: rest =>
    if rest = [] ∧ d = padChar then
      if c = padChar then do
        let x ← decChar a
        let y ← decChar b
        let val := (x <<< 18) ||| (y <<< 12)
        some [(val >>> 16) % 256]
      else do
        let x ← decChar a
        let y ← decChar b
        let z ← decChar c
        let val := (x <<< 18) ||| (y <<< 12) ||| (z <<< 6)
        some [(val >>> 16) % 256, (val >>> 8) % 256]
    else do
      let x ← decChar a
      let y ← decChar b
      let z ← decChar c
      let w ← decChar d
      let val := (x <<< 18) ||| (y <<< 12) ||| (z <<< 6) ||| w
      let tail ← decodeQuanta rest
      some ((val >>> 16) % 256 :: (val >>> 8) % 256 :: val % 256 :: tail)
  | _ => none

/-- Package `encoding/base64`: `StdEncoding.DecodeString(s)`, the standard padded
decoder; carriage returns and line feeds in the input are passed over. `none` is
a `CorruptInputError`. -/
def DecodeString (s : String) : Option (List Nat) :=
  decodeQuanta (s.data.filter (fun c => c != '\r' && c != '\n'))

/-! ## Templates

The three templates are texts for Go's `text/template`. Of that package this file
models what they use: text copied as it stands, and between `{{` and `}}` a field of
the input (`.Name`), the current element (`.`), a pipeline through named functions
(`.Name | F` and `.Name | F 6`), `{{if ...}}` and `{{range ...}}` blocks closed by
`{{end}}`. A template that uses anything else is refused by the parser. -/

/-- The values a template handles. -/
inductive Value where
  | str (s : String)
  | int (n : Int)
  | strs (xs : List String)
deriving DecidableEq

/-- An operand of a command. -/
inductive Operand where
  /-- The current element, written as a lone dot. -/
  | dot
  /-- A field of the input structure, written `.Name`. -/
  | field (name : String)
  /-- A decimal constant. -/
  | num (n : Int)
deriving DecidableEq

/-- A command of a pipeline: a lone operand, or a function with its leading arguments. -/
inductive Command where
  | operand (a : Operand)
  | call (fn : String) (args : List Operand)
deriving DecidableEq

/-- A pipeline: commands separated by `|`, each handing its value to the next as the
last argument. -/
abbrev Pipeline := List Command

/-- A parsed template. -/
inductive Node where
  | text (s : String)
  | action (p : Pipeline)
  | cond (p : Pipeline) (body : List Node)
  | range (p : Pipeline) (body : List Node)

/-- A piece of a template's text: plain text, or the inside of `{{ }}`. -/
inductive Item where
  | text (s : List Char)
  | action (s : List Char)

/-- The lexer: cuts a template at `{{` and `}}`. `acc` holds, reversed, what was
read of the piece at hand. -/
def lexItems : Bool → List Char → List Char → Except String (List Item)
  | false, acc, [] => .ok [.text acc.reverse]
  | true, _, [] => .error "unclosed action"
  | false, acc, '{' :: '{' :: rest => do
    let items ← lexItems true [] rest
    return .text acc.reverse :: items
  | true, acc, '}' :: '}' :: rest => do
    let items ← lexItems false [] rest
    return .action acc.reverse :: items
  | inAction, acc, c :: rest => lexItems inAction (c :: acc) rest

/-- A word of an action, or the `|` between two commands. -/
inductive Tok where
  | word (s : List Char)
  | bar

/-- Ends the word read so far, if there is one. -/
def flushWord (acc : List Char) (toks : List Tok) : List Tok :=
  if acc.isEmpty then toks else .word acc.reverse :: toks

/-- The words of an action: blanks separate them, `|` stands alone. -/
def actionToks : List Char → List Char → List Tok
  | acc, [] => flushWord acc []
  | acc, c :: rest =>
    if c = ' ' ∨ c = '\t' ∨ c = '\r' ∨ c = '\n' then flushWord acc (actionToks [] rest)
    else if c = '|' then flushWord acc (.bar :: actionToks [] rest)
    else actionToks (c :: acc) rest

/-- A letter, a digit or an underscore. -/
def isIdentChar (c : Char) : Bool := c.isAlphanum || c == '_'

/-- An identifier: it starts with a letter or an underscore. -/
def isIdent (w : List Char) : Bool :=
  match w with
  | [] => false
  | c :: rest => (c.isAlpha || c == '_') && rest.all isIdentChar

/-- The number a run of decimal digits stands for. -/
def decimal (w : List Char) : Nat :=
  w.foldl (fun n c => 10 * n + (c.toNat - '0'.toNat)) 0

/-- Reads a word as an operand: `.`, `.Name` or a decimal constant. -/
def parseOperand (w : List Char) : Option Operand :=
  match w with
  | [] => none
  | '.' :: name =>
    if name.isEmpty then some .dot
    else if isIdent name then some (.field (String.mk name))
    else none
  | c :: rest =>
    if (c :: rest).all Char.isDigit then some (.num (decimal (c :: rest))) else none

/-- Reads the arguments of a function. -/
def parseArgs : List (List Char) → Except String (List Operand)
  | [] => .ok []
  | w :: ws =>
    match parseOperand w with
    | none => .error ("unexpected " ++ String.mk w ++ " in operand")
    | some a => do
      let rest ← parseArgs ws
      return a :: rest

/-- Reads one command; `funcs` are the names of the functions the template was given. -/
def parseCommand (funcs : List String) : List (List Char) → Except String Command
  | [] => .error "missing value for command"
  | w :: args =>
    match parseOperand w with
    | some a =>
      if args.isEmpty then .ok (.operand a) else .error "can't give argument to non-function"
    | none =>
      if isIdent w then
        if funcs.contains (String.mk w) then do
          let operands ← parseArgs args
          return .call (String.mk w) operands
        else .error ("function \"" ++ String.mk w ++ "\" not defined")
      else .error ("unexpected " ++ String.mk w ++ " in command")

/-- The words of each command of a pipeline. -/
def splitBars : List Tok → List (List (List Char))
  | [] => [[]]
  | .bar :: rest => [] :: splitBars rest
  | .word w :: rest =>
    match splitBars rest with
    | [] => [[w]]
    | c :: cs => (w :: c) :: cs

/-- Reads the commands of a pipeline. -/
def parseCommands (funcs : List String) : List (List (List Char)) → Except String Pipeline
  | [] => .ok []
  | c :: cs => do
    let cmd ← parseCommand funcs c
    let rest ← parseCommands funcs cs
    return cmd :: rest

/-- Reads a pipeline. -/
def parsePipeline (funcs : List String) (toks : List Tok) : Except String Pipeline :=
  parseCommands funcs (splitBars toks)

/-- What stands between `{{` and `}}`. -/
inductive Action where
  | pipe (p : Pipeline)
  | ifStart (p : Pipeline)
  | rangeStart (p : Pipeline)
  | endBlock

/-- Reads the inside of `{{ }}`. -/
def parseAction (funcs : List String) (txt : List Char) : Except String Action :=
  match actionToks [] txt with
  | .word w :: rest =>
    if w = "if".data then do
      let p ← parsePipeline funcs rest
      return .ifStart p
    else if w = "range".data then do
      let p ← parsePipeline funcs rest
      return .rangeStart p
    else if w = "end".data then
      if rest.isEmpty then .ok .endBlock else .error "unexpected token in end"
    else do
      let p ← parsePipeline funcs (.word w :: rest)
      return .pipe p
  | toks => do
    let p ← parsePipeline funcs toks
    return .pipe p

/-- An open `{{if}}` or `{{range}}` block: its pipeline and, reversed, the nodes read
before it in the enclosing list. -/
structure Frame where
  isRange : Bool
  pipe : Pipeline
  before : List Node

/-- Builds the tree: `open_` are the blocks not yet closed, innermost first, `cur`
the nodes of the innermost list read so far, reversed. -/
def build (funcs : List String) : List Item → List Frame → List Node →
    Except String (List Node)
  | [], [], cur => .ok cur.reverse
  | [], _ :: _, _ => .error "unexpected EOF"
  | .text s :: rest, open_, cur =>
    build funcs rest open_ (if s.isEmpty then cur else .text (String.mk s) :: cur)
  | .action s :: rest, open_, cur =>
    match parseAction funcs s with
    | .error e => .error e
    | .ok (.pipe p) => build funcs rest open_ (.action p :: cur)
    | .ok (.ifStart p) => build funcs rest (Frame.mk false p cur :: open_) []
    | .ok (.rangeStart p) => build funcs rest (Frame.mk true p cur :: open_) []
    | .ok .endBlock =>
      match open_ with
      | [] => .error "unexpected {{end}}"
      | f :: outer =>
        build funcs rest outer
          ((if f.isRange then Node.range f.pipe cur.reverse
            else Node.cond f.pipe cur.reverse) :: f.before)

/-- `template.New(name).Funcs(funcs).Parse(tpl)`. -/
def parseTemplate (funcs : List String) (tpl : String) : Except String (List Node) := do
  let items ← lexItems false [] tpl.data
  build funcs items [] []

/-- A function a template can call, on the values of its arguments. -/
abbrev TemplateFunc := List Value → Except String Value

/-- Modelled from the spec: the type `funcMap` is declared outside this file. It is the
mapping from function name to transformation function that the renderer is given
(`template.FuncMap`). -/
abbrev funcMap := List (String × TemplateFunc)

/-- The exported fields of the input structure, by name, as reflection finds them. -/
abbrev Fields := List (String × Value)

/-- The value of an operand. `dot` is the current element inside a `range`, and
`none` outside, where the dot is the input structure itself. -/
def evalOperand (data : Fields) (dot : Option Value) : Operand → Except String Value
  | .num n => .ok (.int n)
  | .dot =>
    match dot with
    | some v => .ok v
    | none => .error "the input structure is not printed"
  | .field name =>
    match dot with
    | some _ => .error ("can't evaluate field " ++ name)
    | none =>
      match data.lookup name with
      | some v => .ok v
      | none => .error ("can't evaluate field " ++ name)

/-- The values of a function's arguments. -/
def evalArgs (data : Fields) (dot : Option Value) : List Operand → Except String (List Value)
  | [] => .ok []
  | a :: rest => do
    let v ← evalOperand data dot a
    let vs ← evalArgs data dot rest
    return v :: vs

/-- The value of a command; `prev` is the value of the command before it in the
pipeline, which a function takes as its last argument. -/
def evalCommand (funcs : funcMap) (data : Fields) (dot : Option Value)
    (prev : Option Value) : Command → Except String Value
  | .operand a =>
    match prev with
    | some _ => .error "can't give argument to non-function"
    | none => evalOperand data dot a
  | .call fn args =>
    match funcs.lookup fn with
    | none => .error ("function \"" ++ fn ++ "\" not defined")
    | some f => do
      let vs ← evalArgs data dot args
      f (vs ++ prev.toList)

/-- The value of a pipeline. -/
def evalPipeline (funcs : funcMap) (data : Fields) (dot : Option Value) :
    Option Value → Pipeline → Except String Value
  | none, [] => .error "missing value for command"
  | some v, [] => .ok v
  | prev, c :: cs => do
    let v ← evalCommand funcs data dot prev c
    evalPipeline funcs data dot (some v) cs

/-- The text a value is printed as; text is copied as it stands, nothing is escaped. -/
def printValue : Value → String
  | .str s => s
  | .int n => toString n
  | .strs xs => "[" ++ stringsJoin xs " " ++ "]"

/-- The truth of a value in `{{if}}`: a list is true when it has an element, a text
when it is not empty, a number when it is not zero. -/
def truth : Value → Bool
  | .str s => s != ""
  | .int n => n != 0
  | .strs xs => !xs.isEmpty

/-- The body of a `{{range}}`, once for each element in turn. -/
def rangeOver (body : String → Except String String) : List String → Except String String
  | [] => .ok ""
  | x :: xs => do
    let a ← body x
    let b ← rangeOver body xs
    return a ++ b

mutual
/-- The text a node produces. -/
def execNode (funcs : funcMap) (data : Fields) : Node → Option Value → Except String String
  | .text s, _ => .ok s
  | .action p, dot => do
    let v ← evalPipeline funcs data dot none p
    return printValue v
  | .cond p body, dot => do
    let v ← evalPipeline funcs data dot none p
    if truth v then execList funcs data body dot else .ok ""
  | .range p body, dot => do
    let v ← evalPipeline funcs data dot none p
    match v with
    | .strs xs => rangeOver (fun x => execList funcs data body (some (.str x))) xs
    | _ => .error "range can't iterate over the value"
/-- The text a list of nodes produces, one after the other. -/
def execList (funcs : funcMap) (data : Fields) : List Node → Option Value →
    Except String String
  | [], _ => .ok ""
  | n :: ns, dot => do
    let a ← execNode funcs data n dot
    let b ← execList funcs data ns dot
    return a ++ b
end

/-- Modelled from the spec: `generateWithFuncs(kind, tpl, funcsMap, data)` is called by the
generators and defined outside this file. After section 4.2 of the specification it parses
the template body with the functions registered and renders it on the input value; a field
or function the template names and the input or the map lacks, or a malformed template, is
an error that names the template, and then no text is returned. -/
def generateWithFuncs (kind tpl : String) (funcsMap : funcMap) (data : Fields) :
    String × Option String :=
  match parseTemplate (funcsMap.map Prod.fst) tpl with
  | .error e => ("", some ("template: " ++ kind ++ ": " ++ e))
  | .ok nodes =>
    match execList funcsMap data nodes none with
    | .error e => ("", some ("template: " ++ kind ++ ": " ++ e))
    | .ok out => (out, none)

/-! ## The data model -/

/-- Modelled from the spec: the type `baseUserData` is declared outside this file. Of the
structure embedded in both control-plane inputs this file writes the field `Header` and
the templates read it: the leading marker line of the document. -/
structure baseUserData where
  Header : String
deriving DecidableEq

/-- The context to generate a controlplane instance user data. -/
structure ControlPlaneInput extends baseUserData where
  SSHAuthorizedKeys : List String
  CACert : String
  CAKey : String
  EtcdCACert : String
  EtcdCAKey : String
  FrontProxyCACert : String
  FrontProxyCAKey : String
  SaCert : String
  SaKey : String
  CloudConfig : String
  ClusterConfiguration : String
  InitConfiguration : String
  CertDir : String
deriving DecidableEq

/-- The context to generate controlplane instance user data for controlplane node join. -/
structure ContolPlaneJoinInput extends baseUserData where
  SSHAuthorizedKeys : List String
  CACert : String
  CAKey : String
  EtcdCACert : String
  EtcdCAKey : String
  FrontProxyCACert : String
  FrontProxyCAKey : String
  SaCert : String
  SaKey : String
  BootstrapToken : String
  ELBAddress : String
  CloudConfig : String
  JoinConfiguration : String
  CertDir : String
deriving DecidableEq

/-- The parameters required to generate the vSphere Cloud Provider cloud config file. -/
structure CloudConfigInput where
  SecretName : String
  SecretNamespace : String
  Server : String
  Datacenter : String
  ResourcePool : String
  Folder : String
  Datastore : String
  Network : String
deriving DecidableEq

/-! ## The templates -/

/-- The constant `cloudConfig`. -/
def cloudConfig : String :=
  "[Global]
secret-name = \"{{ .SecretName }}\"
secret-namespace = \"{{ .SecretNamespace }}\"
insecure-flag = \"1\" # set to 1 if the vCenter uses a self-signed cert
datacenters = \"{{ .Datacenter }}\"

[VirtualCenter \"{{ .Server }}\"]

[Workspace]
server = \"{{ .Server }}\"
datacenter = \"{{ .Datacenter }}\"
folder = \"{{ .Folder }}\"
default-datastore = \"{{ .Datastore }}\"
resourcepool-path = \"{{ .ResourcePool }}\"

[Disk]
scsicontrollertype = pvscsi

[Network]
public-network = \"{{ .Network }}\"
"

/-- The constant `controlPlaneCloudInit`. -/
def controlPlaneCloudInit : String :=
  "{{.Header}}
{{if .SSHAuthorizedKeys}}ssh_authorized_keys:{{range .SSHAuthorizedKeys}}
- \"{{.}}\"{{end}}{{end}}

write_files:
-   path: /etc/test/pki/ca.crt
    encoding: \"base64\"
    owner: root:root
    permissions: '0640'
    content: |
      {{.CACert | Base64Encode}}

-   path: /etc/test/pki/ca.key
    encoding: \"base64\"
    owner: root:root
    permissions: '0600'
    content: |
      {{.CAKey | Base64Encode}}

-   path: /etc/test/pki/etcd/ca.crt
    encoding: \"base64\"
    owner: root:root
    permissions: '0640'
    content: |
      {{.EtcdCACert | Base64Encode}}

-   path: /etc/test/pki/etcd/ca.key
    encoding: \"base64\"
    owner: root:root
    permissions: '0600'
    content: |
      {{.EtcdCAKey | Base64Encode}}

-   path: /etc/test/pki/front-proxy-ca.crt
    encoding: \"base64\"
    owner: root:root
    permissions: '0640'
    content: |
      {{.FrontProxyCACert | Base64Encode}}

-   path: /etc/test/pki/front-proxy-ca.key
    encoding: \"base64\"
    owner: root:root
    permissions: '0600'
    content: |
      {{.FrontProxyCAKey | Base64Encode}}

-   path: /etc/test/pki/sa.pub
    encoding: \"base64\"
    owner: root:root
    permissions: '0640'
    content: |
      {{.SaCert | Base64Encode}}

-   path: /etc/test/pki/sa.key
    encoding: \"base64\"
    owner: root:root
    permissions: '0600'
    content: |
      {{.SaKey | Base64Encode}}

-   path: /etc/kubernetes/vsphere.conf
    encoding: \"base64\"
    owner: root:root
    permissions: '0600'
    content: |
      {{.CloudConfig | Base64Encode}}

-   path: /tmp/kubeadm.yaml
    owner: root:root
\tpermissions: '0640'
\tcontent: |
      ---
{{.ClusterConfiguration | Indent 6}}
      ---
{{.InitConfiguration | Indent 6}}
kubeadm:
  operation: init
  config: /tmp/kubeadm.yaml

"

/-- The constant `controlPlaneJoinCloudInit`. -/
def controlPlaneJoinCloudInit : String :=
  "{{.Header}}
{{if .SSHAuthorizedKeys}}ssh_authorized_keys:{{range .SSHAuthorizedKeys}}
- \"{{.}}\"{{end}}{{end}}

write_files:
-   path: /etc/test/pki/ca.crt
    encoding: \"base64\"
    owner: root:root
    permissions: '0640'
    content: |
      {{.CACert | Base64Encode}}

-   path: /etc/test/pki/ca.key
    encoding: \"base64\"
    owner: root:root
    permissions: '0600'
    content: |
      {{.CAKey | Base64Encode}}

-   path: /etc/test/pki/etcd/ca.crt
    encoding: \"base64\"
    owner: root:root
    permissions: '0640'
    content: |
      {{.EtcdCACert | Base64Encode}}

-   path: /etc/test/pki/etcd/ca.key
    encoding: \"base64\"
    owner: root:root
    permissions: '0600'
    content: |
      {{.EtcdCAKey | Base64Encode}}

-   path: /etc/test/pki/front-proxy-ca.crt
    encoding: \"base64\"
    owner: root:root
    permissions: '0640'
    content: |
      {{.FrontProxyCACert | Base64Encode}}

-   path: /etc/test/pki/front-proxy-ca.key
    encoding: \"base64\"
    owner: root:root
    permissions: '0600'
    content: |
      {{.FrontProxyCAKey | Base64Encode}}

-   path: /etc/test/pki/sa.pub
    encoding: \"base64\"
    owner: root:root
    permissions: '0640'
    content: |
      {{.SaCert | Base64Encode}}

-   path: /etc/test/pki/sa.key
    encoding: \"base64\"
    owner: root:root
    permissions: '0600'
    content: |
      {{.SaKey | Base64Encode}}

-   path: /etc/kubernetes/vsphere.conf
    encoding: \"base64\"
    owner: root:root
    permissions: '0600'
    content: |
      {{.CloudConfig | Base64Encode}}

-   path: /tmp/kubeadm-controlplane-join-config.yaml
    owner: root:root
    permissions: '0640'
    content: |
{{.JoinConfiguration | Indent 6}}
kubeadm:
  operation: join
  config: /tmp/kubeadm-controlplane-join-config.yaml
"

/-! ## Validation -/

/-- `isKeyPairValid(cert, key)`: `cert != "" && key != ""`. -/
def isKeyPairValid (cert key : String) : Bool :=
  cert != "" && key != ""

/-- `(*ControlPlaneInput).validateCertificates`. -/
def ControlPlaneInput.validateCertificates (cpi : ControlPlaneInput) : Option String :=
  if !isKeyPairValid cpi.CACert cpi.CAKey then
    errorsNew "CA cert material in the ControlPlaneInput is missing cert/key"
  else if !isKeyPairValid cpi.EtcdCACert cpi.EtcdCAKey then
    errorsNew "ETCD CA cert material in the ControlPlaneInput is  missing cert/key"
  else if !isKeyPairValid cpi.FrontProxyCACert cpi.FrontProxyCAKey then
    errorsNew "FrontProxy CA cert material in ControlPlaneInput is  missing cert/key"
  else if !isKeyPairValid cpi.SaCert cpi.SaKey then
    errorsNew "ServiceAccount cert material in ControlPlaneInput is  missing cert/key"
  else
    none

/-- `(*ContolPlaneJoinInput).validateCertificates`. -/
def ContolPlaneJoinInput.validateCertificates (cpi : ContolPlaneJoinInput) : Option String :=
  if !isKeyPairValid cpi.CACert cpi.CAKey then
    errorsNew "CA cert material in the ContolPlaneJoinInput is  missing cert/key"
  else if !isKeyPairValid cpi.EtcdCACert cpi.EtcdCAKey then
    errorsNew "ETCD cert material in the ContolPlaneJoinInput is  missing cert/key"
  else if !isKeyPairValid cpi.FrontProxyCACert cpi.FrontProxyCAKey then
    errorsNew "FrontProxy cert material in ContolPlaneJoinInput is  missing cert/key"
  else if !isKeyPairValid cpi.SaCert cpi.SaKey then
    errorsNew "ServiceAccount cert material in ContolPlaneJoinInput is  missing cert/key"
  else
    none

/-! ## The template functions -/

/-- `templateBase64Encode(s)`: `base64.StdEncoding.EncodeToString([]byte(s))`. -/
def templateBase64Encode (s : String) : String :=
  EncodeToString (bytesOf s)

/-- `templateYAMLIndent(i, input)`. -/
def templateYAMLIndent (i : Int) (input : String) : Except String String := do
  let split := stringsSplit input "\n"
  let ident := "\n" ++ (← stringsRepeat " " i)
  return (← stringsRepeat " " i) ++ stringsJoin split ident

/-! ## The generators -/

/-- The fields of a `ControlPlaneInput` a template can name; `Header` is the field of
the embedded `baseUserData`. -/
def ControlPlaneInput.fields (input : ControlPlaneInput) : Fields :=
  [("Header", .str input.Header),
   ("SSHAuthorizedKeys", .strs input.SSHAuthorizedKeys),
   ("CACert", .str input.CACert),
   ("CAKey", .str input.CAKey),
   ("EtcdCACert", .str input.EtcdCACert),
   ("EtcdCAKey", .str input.EtcdCAKey),
   ("FrontProxyCACert", .str input.FrontProxyCACert),
   ("FrontProxyCAKey", .str input.FrontProxyCAKey),
   ("SaCert", .str input.SaCert),
   ("SaKey", .str input.SaKey),
   ("CloudConfig", .str input.CloudConfig),
   ("ClusterConfiguration", .str input.ClusterConfiguration),
   ("InitConfiguration", .str input.InitConfiguration),
   ("CertDir", .str input.CertDir)]

/-- The fields of a `ContolPlaneJoinInput` a template can name. -/
def ContolPlaneJoinInput.fields (input : ContolPlaneJoinInput) : Fields :=
  [("Header", .str input.Header),
   ("SSHAuthorizedKeys", .strs input.SSHAuthorizedKeys),
   ("CACert", .str input.CACert),
   ("CAKey", .str input.CAKey),
   ("EtcdCACert", .str input.EtcdCACert),
   ("EtcdCAKey", .str input.EtcdCAKey),
   ("FrontProxyCACert", .str input.FrontProxyCACert),
   ("FrontProxyCAKey", .str input.FrontProxyCAKey),
   ("SaCert", .str input.SaCert),
   ("SaKey", .str input.SaKey),
   ("BootstrapToken", .str input.BootstrapToken),
   ("ELBAddress", .str input.ELBAddress),
   ("CloudConfig", .str input.CloudConfig),
   ("JoinConfiguration", .str input.JoinConfiguration),
   ("CertDir", .str input.CertDir)]

/-- The fields of a `CloudConfigInput` a template can name. -/
def CloudConfigInput.fields (input : CloudConfigInput) : Fields :=
  [("SecretName", .str input.SecretName),
   ("SecretNamespace", .str input.SecretNamespace),
   ("Server", .str input.Server),
   ("Datacenter", .str input.Datacenter),
   ("ResourcePool", .str input.ResourcePool),
   ("Folder", .str input.Folder),
   ("Datastore", .str input.Datastore),
   ("Network", .str input.Network)]

/-- The template function `Base64Encode`: `templateBase64Encode` on one text. -/
def base64EncodeFunc : TemplateFunc
  | [.str s] => .ok (.str (templateBase64Encode s))
  | _ => .error "wrong number or type of args for Base64Encode"

/-- The template function `Indent`: `templateYAMLIndent` on a number and a text; a
panic of the function ends the rendering with an error. -/
def indentFunc : TemplateFunc
  | [.int i, .str s] =>
    match templateYAMLIndent i s with
    | .ok out => .ok (.str out)
    | .error e => .error ("error calling Indent: " ++ e)
  | _ => .error "wrong number or type of args for Indent"

/-- The map `fMap` of `NewControlPlane` and of `JoinControlPlane`. -/
def controlPlaneFuncs : funcMap :=
  [("Base64Encode", base64EncodeFunc), ("Indent", indentFunc)]

/-- `NewControlPlane(input)`: the input as the call leaves it, the user data and the
error. `cloudConfigHeader` is a constant of the package declared outside this file. -/
def NewControlPlane (cloudConfigHeader : String) (input : ControlPlaneInput) :
    ControlPlaneInput × String × Option String :=
  let input := { input with Header := cloudConfigHeader }
  match input.validateCertificates with
  | some err => (input, "", errorsWrapf (some err) "ControlPlaneInput is invalid")
  | none =>
    match generateWithFuncs "controlplane" controlPlaneCloudInit controlPlaneFuncs
        input.fields with
    | (_, some err) =>
      (input, "",
        errorsWrapf (some err) "failed to generate user data for new control plane machine")
    | (userData, none) => (input, userData, none)

/-- `JoinControlPlane(input)`: the input as the call leaves it, the user data and the
error. -/
def JoinControlPlane (cloudConfigHeader : String) (input : ContolPlaneJoinInput) :
    ContolPlaneJoinInput × String × Option String :=
  let input := { input with Header := cloudConfigHeader }
  match input.validateCertificates with
  | some err => (input, "", errorsWrapf (some err) "ControlPlaneInput is invalid")
  | none =>
    match generateWithFuncs "controlplane" controlPlaneJoinCloudInit controlPlaneFuncs
        input.fields with
    | (_, some err) =>
      (input, "",
        errorsWrapf (some err) "failed to generate user data for machine joining control plane")
    | (userData, none) => (input, userData, none)

/-- `NewCloudConfig(input)`: the content of the cloud config file and the error. -/
def NewCloudConfig (input : CloudConfigInput) : String × Option String :=
  match generateWithFuncs "cloudprovider" cloudConfig [] input.fields with
  | (_, some err) =>
    ("", errorsWrapf (some err) "failed to generate user data for new control plane machine")
  | (userData, none) => (userData, none)

/-! ## Definitions used to state the theorems -/

/-- The function `stringsJoin` on lists of characters. -/
def joinChars : List (List Char) → List Char → List Char
  | [], _ => []
  | [a], _ => a
  | a :: b :: rest, sep => a ++ sep ++ joinChars (b :: rest) sep

/-- The text of `n` space characters. -/
def spaces (n : Nat) : String := String.mk (List.replicate n ' ')

/-- The text `s` without its first `n` characters. -/
def dropChars (n : Nat) (s : String) : String := String.mk (s.data.drop n)

/-- The first `n` characters of the text `s`. -/
def takeChars (n : Nat) (s : String) : String := String.mk (s.data.take n)

/-- An init input whose credential strings are all set. -/
def sampleInit : ControlPlaneInput where
  Header := ""
  SSHAuthorizedKeys := ["ssh-rsa AAAA"]
  CACert := "ca-cert"
  CAKey := "ca-key"
  EtcdCACert := "etcd-cert"
  EtcdCAKey := "etcd-key"
  FrontProxyCACert := "fp-cert"
  FrontProxyCAKey := "fp-key"
  SaCert := "sa-pub"
  SaKey := "sa-key"
  CloudConfig := "[Global]\n"
  ClusterConfiguration := "kind: ClusterConfiguration\n"
  InitConfiguration := "kind: InitConfiguration"
  CertDir := ""

/-- A join input whose credential strings are all set. -/
def sampleJoin : ContolPlaneJoinInput where
  Header := ""
  SSHAuthorizedKeys := []
  CACert := "ca-cert"
  CAKey := "ca-key"
  EtcdCACert := "etcd-cert"
  EtcdCAKey := "etcd-key"
  FrontProxyCACert := "fp-cert"
  FrontProxyCAKey := "fp-key"
  SaCert := "sa-pub"
  SaKey := "sa-key"
  BootstrapToken := ""
  ELBAddress := ""
  CloudConfig := "[Global]\n"
  JoinConfiguration := "kind: JoinConfiguration"
  CertDir := ""

/-! ## The parsed templates -/

/-- The template `controlPlaneCloudInit` as the parser reads it. -/
def controlPlaneNodes : List Node :=
  [.action [.operand (.field "Header")],
   .text
     "\n",
   .cond [.operand (.field "SSHAuthorizedKeys")]
     [.text "ssh_authorized_keys:",
      .range [.operand (.field "SSHAuthorizedKeys")]
        [.text "\n- \"", .action [.operand .dot], .text "\""]],
   .text
     "\n\nwrite_files:\n-   path: /etc/test/pki/ca.crt\n    encoding: \"base64\"\n    owner: root:root\n    permissions: '0640'\n    content: |\n      ",
   .action [.operand (.field "CACert"), .call "Base64Encode" []],
   .text
     "\n\n-   path: /etc/test/pki/ca.key\n    encoding: \"base64\"\n    owner: root:root\n    permissions: '0600'\n    content: |\n      ",
   .action [.operand (.field "CAKey"), .call "Base64Encode" []],
   .text
     "\n\n-   path: /etc/test/pki/etcd/ca.crt\n    encoding: \"base64\"\n    owner: root:root\n    permissions: '0640'\n    content: |\n      ",
   .action [.operand (.field "EtcdCACert"), .call "Base64Encode" []],
   .text
     "\n\n-   path: /etc/test/pki/etcd/ca.key\n    encoding: \"base64\"\n    owner: root:root\n    permissions: '0600'\n    content: |\n      ",
   .action [.operand (.field "EtcdCAKey"), .call "Base64Encode" []],
   .text
     "\n\n-   path: /etc/test/pki/front-proxy-ca.crt\n    encoding: \"base64\"\n    owner: root:root\n    permissions: '0640'\n    content: |\n      ",
   .action [.operand (.field "FrontProxyCACert"), .call "Base64Encode" []],
   .text
     "\n\n-   path: /etc/test/pki/front-proxy-ca.key\n    encoding: \"base64\"\n    owner: root:root\n    permissions: '0600'\n    content: |\n      ",
   .action [.operand (.field "FrontProxyCAKey"), .call "Base64Encode" []],
   .text
     "\n\n-   path: /etc/test/pki/sa.pub\n    encoding: \"base64\"\n    owner: root:root\n    permissions: '0640'\n    content: |\n      ",
   .action [.operand (.field "SaCert"), .call "Base64Encode" []],
   .text
     "\n\n-   path: /etc/test/pki/sa.key\n    encoding: \"base64\"\n    owner: root:root\n    permissions: '0600'\n    content: |\n      ",
   .action [.operand (.field "SaKey"), .call "Base64Encode" []],
   .text
     "\n\n-   path: /etc/kubernetes/vsphere.conf\n    encoding: \"base64\"\n    owner: root:root\n    permissions: '0600'\n    content: |\n      ",
   .action [.operand (.field "CloudConfig"), .call "Base64Encode" []],
   .text
     "\n\n-   path: /tmp/kubeadm.yaml\n    owner: root:root\n\tpermissions: '0640'\n\tcontent: |\n      ---\n",
   .action [.operand (.field "ClusterConfiguration"), .call "Indent" [.num 6]],
   .text
     "\n      ---\n",
   .action [.operand (.field "InitConfiguration"), .call "Indent" [.num 6]],
   .text
     "\nkubeadm:\n  operation: init\n  config: /tmp/kubeadm.yaml\n\n"]

/-- The template `controlPlaneJoinCloudInit` as the parser reads it. -/
def controlPlaneJoinNodes : List Node :=
  [.action [.operand (.field "Header")],
   .text
     "\n",
   .cond [.operand (.field "SSHAuthorizedKeys")]
     [.text "ssh_authorized_keys:",
      .range [.operand (.field "SSHAuthorizedKeys")]
        [.text "\n- \"", .action [.operand .dot], .text "\""]],
   .text
     "\n\nwrite_files:\n-   path: /etc/test/pki/ca.crt\n    encoding: \"base64\"\n    owner: root:root\n    permissions: '0640'\n    content: |\n      ",
   .action [.operand (.field "CACert"), .call "Base64Encode" []],
   .text
     "\n\n-   path: /etc/test/pki/ca.key\n    encoding: \"base64\"\n    owner: root:root\n    permissions: '0600'\n    content: |\n      ",
   .action [.operand (.field "CAKey"), .call "Base64Encode" []],
   .text
     "\n\n-   path: /etc/test/pki/etcd/ca.crt\n    encoding: \"base64\"\n    owner: root:root\n    permissions: '0640'\n    content: |\n      ",
   .action [.operand (.field "EtcdCACert"), .call "Base64Encode" []],
   .text
     "\n\n-   path: /etc/test/pki/etcd/ca.key\n    encoding: \"base64\"\n    owner: root:root\n    permissions: '0600'\n    content: |\n      ",
   .action [.operand (.field "EtcdCAKey"), .call "Base64Encode" []],
   .text
     "\n\n-   path: /etc/test/pki/front-proxy-ca.crt\n    encoding: \"base64\"\n    owner: root:root\n    permissions: '0640'\n    content: |\n      ",
   .action [.operand (.field "FrontProxyCACert"), .call "Base64Encode" []],
   .text
     "\n\n-   path: /etc/test/pki/front-proxy-ca.key\n    encoding: \"base64\"\n    owner: root:root\n    permissions: '0600'\n    content: |\n      ",
   .action [.operand (.field "FrontProxyCAKey"), .call "Base64Encode" []],
   .text
     "\n\n-   path: /etc/test/pki/sa.pub\n    encoding: \"base64\"\n    owner: root:root\n    permissions: '0640'\n    content: |\n      ",
   .action [.operand (.field "SaCert"), .call "Base64Encode" []],
   .text
     "\n\n-   path: /etc/test/pki/sa.key\n    encoding: \"base64\"\n    owner: root:root\n    permissions: '0600'\n    content: |\n      ",
   .action [.operand (.field "SaKey"), .call "Base64Encode" []],
   .text
     "\n\n-   path: /etc/kubernetes/vsphere.conf\n    encoding: \"base64\"\n    owner: root:root\n    permissions: '0600'\n    content: |\n      ",
   .action [.operand (.field "CloudConfig"), .call "Base64Encode" []],
   .text
     "\n\n-   path: /tmp/kubeadm-controlplane-join-config.yaml\n    owner: root:root\n    permissions: '0640'\n    content: |\n",
   .action [.operand (.field "JoinConfiguration"), .call "Indent" [.num 6]],
   .text
     "\nkubeadm:\n  operation: join\n  config: /tmp/kubeadm-controlplane-join-config.yaml\n"]

/-- The template `cloudConfig` as the parser reads it. -/
def cloudConfigNodes : List Node :=
  [.text
     "[Global]\nsecret-name = \"",
   .action [.operand (.field "SecretName")],
   .text
     "\"\nsecret-namespace = \"",
   .action [.operand (.field "SecretNamespace")],
   .text
     "\"\ninsecure-flag = \"1\" # set to 1 if the vCenter uses a self-signed cert\ndatacenters = \"",
   .action [.operand (.field "Datacenter")],
   .text
     "\"\n\n[VirtualCenter \"",
   .action [.operand (.field "Server")],
   .text
     "\"]\n\n[Workspace]\nserver = \"",
   .action [.operand (.field "Server")],
   .text
     "\"\ndatacenter = \"",
   .action [.operand (.field "Datacenter")],
   .text
     "\"\nfolder = \"",
   .action [.operand (.field "Folder")],
   .text
     "\"\ndefault-datastore = \"",
   .action [.operand (.field "Datastore")],
   .text
     "\"\nresourcepool-path = \"",
   .action [.operand (.field "ResourcePool")],
   .text
     "\"\n\n[Disk]\nscsicontrollertype = pvscsi\n\n[Network]\npublic-network = \"",
   .action [.operand (.field "Network")],
   .text
     "\"\n"]

/-- The texts of a list, one after the other. -/
def concatAll : List String → String
  | [] => ""
  | x :: xs => x ++ concatAll xs

/-- The text `templateYAMLIndent` returns for an indent `n` that is not negative. -/
def indentText (n : Nat) (input : String) : String :=
  spaces n ++ stringsJoin (stringsSplit input "\n") ("\n" ++ spaces n)

/-- The `ssh_authorized_keys:` block of a cloud-init document: nothing for no key,
otherwise the key word and a line `- "key"` for every key. -/
def sshKeysBlock (keys : List String) : String :=
  if keys.isEmpty then ""
  else "ssh_authorized_keys:" ++ concatAll (keys.map fun k => "\n- \"" ++ k ++ "\"")

/-- A `write_files` entry with base64 content: the path, the encoding mark, the owner,
the permissions and the content line, six spaces and the encoded text; an empty line
ends it. -/
def base64Entry (path permissions content : String) : String :=
  "-   path: " ++ path ++ "\n    encoding: \"base64\"\n    owner: root:root\n    permissions: '"
    ++ permissions ++ "'\n    content: |\n      " ++ content ++ "\n\n"

/-- The nine entries with base64 content of a control-plane document, in the order of
the templates. -/
def base64Entries (caCert caKey etcdCACert etcdCAKey frontProxyCACert frontProxyCAKey
    saCert saKey cloudConfig : String) : String :=
  base64Entry "/etc/test/pki/ca.crt" "0640" (templateBase64Encode caCert) ++
  base64Entry "/etc/test/pki/ca.key" "0600" (templateBase64Encode caKey) ++
  base64Entry "/etc/test/pki/etcd/ca.crt" "0640" (templateBase64Encode etcdCACert) ++
  base64Entry "/etc/test/pki/etcd/ca.key" "0600" (templateBase64Encode etcdCAKey) ++
  base64Entry "/etc/test/pki/front-proxy-ca.crt" "0640"
    (templateBase64Encode frontProxyCACert) ++
  base64Entry "/etc/test/pki/front-proxy-ca.key" "0600"
    (templateBase64Encode frontProxyCAKey) ++
  base64Entry "/etc/test/pki/sa.pub" "0640" (templateBase64Encode saCert) ++
  base64Entry "/etc/test/pki/sa.key" "0600" (templateBase64Encode saKey) ++
  base64Entry "/etc/kubernetes/vsphere.conf" "0600" (templateBase64Encode cloudConfig)

/-- The end of the init document: the `/tmp/kubeadm.yaml` entry with the two
configuration fragments, and the directive block. -/
def kubeadmInitTail (clusterConfiguration initConfiguration : String) : String :=
  "-   path: /tmp/kubeadm.yaml\n    owner: root:root\n\tpermissions: '0640'\n\tcontent: |\n"
    ++ "      ---\n" ++ indentText 6 clusterConfiguration ++ "\n      ---\n"
    ++ indentText 6 initConfiguration
    ++ "\nkubeadm:\n  operation: init\n  config: /tmp/kubeadm.yaml\n\n"

/-- The text the template `controlPlaneCloudInit` renders to on an input. -/
def controlPlaneDocument (input : ControlPlaneInput) : String :=
  input.Header ++ "\n" ++ sshKeysBlock input.SSHAuthorizedKeys ++ "\n\nwrite_files:\n"
    ++ base64Entries input.CACert input.CAKey input.EtcdCACert input.EtcdCAKey
      input.FrontProxyCACert input.FrontProxyCAKey input.SaCert input.SaKey input.CloudConfig
    ++ kubeadmInitTail input.ClusterConfiguration input.InitConfiguration

/-- The end of the join document: the entry with the join configuration, and the
directive block. -/
def kubeadmJoinTail (joinConfiguration : String) : String :=
  "-   path: /tmp/kubeadm-controlplane-join-config.yaml\n    owner: root:root\n"
    ++ "    permissions: '0640'\n    content: |\n" ++ indentText 6 joinConfiguration
    ++ "\nkubeadm:\n  operation: join\n  config: /tmp/kubeadm-controlplane-join-config.yaml\n"

/-- The text the template `controlPlaneJoinCloudInit` renders to on an input. -/
def controlPlaneJoinDocument (input : ContolPlaneJoinInput) : String :=
  input.Header ++ "\n" ++ sshKeysBlock input.SSHAuthorizedKeys ++ "\n\nwrite_files:\n"
    ++ base64Entries input.CACert input.CAKey input.EtcdCACert input.EtcdCAKey
      input.FrontProxyCACert input.FrontProxyCAKey input.SaCert input.SaKey input.CloudConfig
    ++ kubeadmJoinTail input.JoinConfiguration

/-- The text the template `cloudConfig` renders to on an input. -/
def cloudConfigDocument (input : CloudConfigInput) : String :=
  "[Global]\nsecret-name = \"" ++ input.SecretName
    ++ "\"\nsecret-namespace = \"" ++ input.SecretNamespace
    ++ "\"\ninsecure-flag = \"1\" # set to 1 if the vCenter uses a self-signed cert\n"
    ++ "datacenters = \"" ++ input.Datacenter
    ++ "\"\n\n[VirtualCenter \"" ++ input.Server
    ++ "\"]\n\n[Workspace]\nserver = \"" ++ input.Server
    ++ "\"\ndatacenter = \"" ++ input.Datacenter
    ++ "\"\nfolder = \"" ++ input.Folder
    ++ "\"\ndefault-datastore = \"" ++ input.Datastore
    ++ "\"\nresourcepool-path = \"" ++ input.ResourcePool
    ++ "\"\n\n[Disk]\nscsicontrollertype = pvscsi\n\n[Network]\npublic-network = \""
    ++ input.Network ++ "\"\n"

/-! # Theorems -/

/-! ## Validation -/

theorem isKeyPairValid_eq_false_iff (cert key : String) :
    isKeyPairValid cert key = false ↔ cert = "" ∨ key = "" := by
  simp only [isKeyPairValid, Bool.and_eq_false_iff, bne_eq_false_iff_eq]

theorem isKeyPairValid_eq_true_iff (cert key : String) :
    isKeyPairValid cert key = true ↔ cert ≠ "" ∧ key ≠ "" := by
  simp [isKeyPairValid]

/-- C4. For all strings `cert` and `key`, `isKeyPairValid cert key` is true if and only
if `cert` is not empty and `key` is not empty. -/
theorem isKeyPairValid_iff (cert key : String) :
    isKeyPairValid cert key = true ↔ cert ≠ "" ∧ key ≠ "" := by
  simp only [isKeyPairValid, Bool.and_eq_true, bne_iff_ne, ne_eq]

/-- The validator of the init input reads the eight credential strings only. -/
theorem ControlPlaneInput.validateCertificates_unfold (cpi : ControlPlaneInput) :
    cpi.validateCertificates =
      if isKeyPairValid cpi.CACert cpi.CAKey = false then
        some "CA cert material in the ControlPlaneInput is missing cert/key"
      else if isKeyPairValid cpi.EtcdCACert cpi.EtcdCAKey = false then
        some "ETCD CA cert material in the ControlPlaneInput is  missing cert/key"
      else if isKeyPairValid cpi.FrontProxyCACert cpi.FrontProxyCAKey = false then
        some "FrontProxy CA cert material in ControlPlaneInput is  missing cert/key"
      else if isKeyPairValid cpi.SaCert cpi.SaKey = false then
        some "ServiceAccount cert material in ControlPlaneInput is  missing cert/key"
      else none := by
  simp only [ControlPlaneInput.validateCertificates, errorsNew, Bool.not_eq_true']

theorem ContolPlaneJoinInput.validateCertificates_join_unfold (cpi : ContolPlaneJoinInput) :
    cpi.validateCertificates =
      if isKeyPairValid cpi.CACert cpi.CAKey = false then
        some "CA cert material in the ContolPlaneJoinInput is  missing cert/key"
      else if isKeyPairValid cpi.EtcdCACert cpi.EtcdCAKey = false then
        some "ETCD cert material in the ContolPlaneJoinInput is  missing cert/key"
      else if isKeyPairValid cpi.FrontProxyCACert cpi.FrontProxyCAKey = false then
        some "FrontProxy cert material in ContolPlaneJoinInput is  missing cert/key"
      else if isKeyPairValid cpi.SaCert cpi.SaKey = false then
        some "ServiceAccount cert material in ContolPlaneJoinInput is  missing cert/key"
      else none := by
  simp only [ContolPlaneJoinInput.validateCertificates, errorsNew, Bool.not_eq_true']

/-- C2. `validateCertificates` returns the error of the first incomplete credential
group in the order cluster CA, etcd CA, front-proxy CA, service account, whatever the
later groups hold; and the four messages are pairwise distinct, so the message names
that group. -/
theorem ControlPlaneInput.validateCertificates_first_failure (cpi : ControlPlaneInput) :
    (isKeyPairValid cpi.CACert cpi.CAKey = false →
      cpi.validateCertificates =
        some "CA cert material in the ControlPlaneInput is missing cert/key") ∧
    (isKeyPairValid cpi.CACert cpi.CAKey = true →
      isKeyPairValid cpi.EtcdCACert cpi.EtcdCAKey = false →
      cpi.validateCertificates =
        some "ETCD CA cert material in the ControlPlaneInput is  missing cert/key") ∧
    (isKeyPairValid cpi.CACert cpi.CAKey = true →
      isKeyPairValid cpi.EtcdCACert cpi.EtcdCAKey = true →
      isKeyPairValid cpi.FrontProxyCACert cpi.FrontProxyCAKey = false →
      cpi.validateCertificates =
        some "FrontProxy CA cert material in ControlPlaneInput is  missing cert/key") ∧
    (isKeyPairValid cpi.CACert cpi.CAKey = true →
      isKeyPairValid cpi.EtcdCACert cpi.EtcdCAKey = true →
      isKeyPairValid cpi.FrontProxyCACert cpi.FrontProxyCAKey = true →
      isKeyPairValid cpi.SaCert cpi.SaKey = false →
      cpi.validateCertificates =
        some "ServiceAccount cert material in ControlPlaneInput is  missing cert/key") ∧
    ("CA cert material in the ControlPlaneInput is missing cert/key" ≠
        "ETCD CA cert material in the ControlPlaneInput is  missing cert/key" ∧
      "CA cert material in the ControlPlaneInput is missing cert/key" ≠
        "FrontProxy CA cert material in ControlPlaneInput is  missing cert/key" ∧
      "CA cert material in the ControlPlaneInput is missing cert/key" ≠
        "ServiceAccount cert material in ControlPlaneInput is  missing cert/key" ∧
      "ETCD CA cert material in the ControlPlaneInput is  missing cert/key" ≠
        "FrontProxy CA cert material in ControlPlaneInput is  missing cert/key" ∧
      "ETCD CA cert material in the ControlPlaneInput is  missing cert/key" ≠
        "ServiceAccount cert material in ControlPlaneInput is  missing cert/key" ∧
      "FrontProxy CA cert material in ControlPlaneInput is  missing cert/key" ≠
        "ServiceAccount cert material in ControlPlaneInput is  missing cert/key") := by
  rw [ControlPlaneInput.validateCertificates_unfold]
  refine ⟨?_, ?_, ?_, ?_, by decide⟩
  · intro h1
    simp [h1]
  · intro h1 h2
    simp [h1, h2]
  · intro h1 h2 h3
    simp [h1, h2, h3]
  · intro h1 h2 h3 h4
    simp [h1, h2, h3, h4]

/-- The init validator accepts exactly the inputs whose eight credential strings are
all set. -/
theorem ControlPlaneInput.validateCertificates_none_iff (cpi : ControlPlaneInput) :
    cpi.validateCertificates = none ↔
      cpi.CACert ≠ "" ∧ cpi.CAKey ≠ "" ∧ cpi.EtcdCACert ≠ "" ∧ cpi.EtcdCAKey ≠ "" ∧
      cpi.FrontProxyCACert ≠ "" ∧ cpi.FrontProxyCAKey ≠ "" ∧
      cpi.SaCert ≠ "" ∧ cpi.SaKey ≠ "" := by
  rw [ControlPlaneInput.validateCertificates_unfold]
  simp only [isKeyPairValid_eq_false_iff]
  constructor
  · intro h
    split_ifs at h with h1 h2 h3 h4
    simp only [not_or] at h1 h2 h3 h4
    exact ⟨h1.1, h1.2, h2.1, h2.2, h3.1, h3.2, h4.1, h4.2⟩
  · rintro ⟨a, b, c, d, e, f, g, h⟩
    simp [a, b, c, d, e, f, g, h]

/-- C3. `validateCertificates` returns no error if and only if all eight credential
strings are non-empty: nothing else about them is checked, so any non-empty strings
are accepted. -/
theorem ControlPlaneInput.validateCertificates_eq_none_iff (cpi : ControlPlaneInput) :
    cpi.validateCertificates = none ↔
      cpi.CACert ≠ "" ∧ cpi.CAKey ≠ "" ∧ cpi.EtcdCACert ≠ "" ∧ cpi.EtcdCAKey ≠ "" ∧
      cpi.FrontProxyCACert ≠ "" ∧ cpi.FrontProxyCAKey ≠ "" ∧
      cpi.SaCert ≠ "" ∧ cpi.SaKey ≠ "" :=
  ControlPlaneInput.validateCertificates_none_iff cpi

/-! ## Splitting and joining at line feeds -/

theorem stringsJoin_data (elems : List String) (sep : String) :
    (stringsJoin elems sep).data = joinChars (elems.map String.data) sep.data := by
  induction elems with
  | nil => rfl
  | cons a rest ih =>
    cases rest with
    | nil => rfl
    | cons b rest =>
      simp only [stringsJoin, String.data_append, ih, List.map_cons, joinChars]

theorem splitAux_nl_cons (c : Char) (rest : List Char) :
    splitAux ['\n'] 0 (c :: rest) =
      if c = '\n' then [] :: splitAux ['\n'] 0 rest
      else
        match splitAux ['\n'] 0 rest with
        | [] => [[c]]
        | piece :: pieces => (c :: piece) :: pieces := by
  simp [splitAux, List.isPrefixOf]
  by_cases h : c = '\n' <;> simp [h]
  intro h'
  exact absurd h'.symm h

theorem splitAux_nl_ne_nil (l : List Char) : splitAux ['\n'] 0 l ≠ [] := by
  induction l with
  | nil => simp [splitAux]
  | cons c rest ih =>
    rw [splitAux_nl_cons]
    split_ifs
    · simp
    · split <;> simp

/-- Reading a piece without a line feed in front of a text extends the first piece. -/
theorem splitAux_nl_append (p rest : List Char) (hp : '\n' ∉ p) :
    splitAux ['\n'] 0 (p ++ rest) =
      (p ++ (splitAux ['\n'] 0 rest).headD []) :: (splitAux ['\n'] 0 rest).tail := by
  induction p with
  | nil =>
    obtain ⟨q, qs, h⟩ := List.exists_cons_of_ne_nil (splitAux_nl_ne_nil rest)
    simp [h]
  | cons c p ih =>
    have hc : c ≠ '\n' := fun h => hp (by simp [h])
    have hp' : '\n' ∉ p := fun h => hp (by simp [h])
    rw [List.cons_append, splitAux_nl_cons, if_neg hc, ih hp']
    simp

/-- The pieces of a text have no line feed. -/
theorem splitAux_nl_no_nl (l : List Char) : ∀ p ∈ splitAux ['\n'] 0 l, '\n' ∉ p := by
  induction l with
  | nil => simp [splitAux]
  | cons c rest ih =>
    rw [splitAux_nl_cons]
    split_ifs with hc
    · intro p hp
      rcases List.mem_cons.1 hp with h | h
      · simp [h]
      · exact ih p h
    · obtain ⟨q, qs, h⟩ := List.exists_cons_of_ne_nil (splitAux_nl_ne_nil rest)
      rw [h] at ih ⊢
      intro p hp
      rcases List.mem_cons.1 hp with h' | h'
      · subst h'
        have := ih q (by simp)
        simp only [List.mem_cons, not_or]
        exact ⟨fun e => hc e.symm, this⟩
      · exact ih p (by simp [h'])

/-- Joining the pieces of a text with line feeds gives the text back. -/
theorem joinChars_splitAux_nl (l : List Char) :
    joinChars (splitAux ['\n'] 0 l) ['\n'] = l := by
  induction l with
  | nil => simp [splitAux, joinChars]
  | cons c rest ih =>
    rw [splitAux_nl_cons]
    obtain ⟨q, qs, h⟩ := List.exists_cons_of_ne_nil (splitAux_nl_ne_nil rest)
    rw [h] at ih ⊢
    split_ifs with hc
    · simp [joinChars, ih, hc]
    · cases qs with
      | nil => simpa [joinChars] using ih
      | cons r rs =>
        simp only [joinChars] at ih ⊢
        simp [ih.symm]

/-- Splitting lines joined with line feeds gives the lines back, when no line has a
line feed and there is a line. -/
theorem splitAux_nl_joinChars (lines : List (List Char)) (hne : lines ≠ [])
    (hnl : ∀ p ∈ lines, '\n' ∉ p) :
    splitAux ['\n'] 0 (joinChars lines ['\n']) = lines := by
  induction lines with
  | nil => exact absurd rfl hne
  | cons a rest ih =>
    have ha : '\n' ∉ a := hnl a (by simp)
    cases rest with
    | nil =>
      have := splitAux_nl_append a [] ha
      simpa [joinChars, splitAux] using this
    | cons b rest =>
      have hrest := ih (by simp) (fun p hp => hnl p (List.mem_cons_of_mem _ hp))
      simp only [joinChars, List.append_assoc]
      rw [splitAux_nl_append a _ ha]
      simp only [List.singleton_append]
      rw [splitAux_nl_cons, if_pos rfl, hrest]
      simp

/-- Indenting before joining is joining the indented lines. -/
theorem joinChars_indent (pad : List Char) (lines : List (List Char)) (hne : lines ≠ []) :
    pad ++ joinChars lines ('\n' :: pad) = joinChars (lines.map (pad ++ ·)) ['\n'] := by
  induction lines with
  | nil => exact absurd rfl hne
  | cons a rest ih =>
    cases rest with
    | nil => simp [joinChars]
    | cons b rest =>
      have h := ih (by simp)
      simp only [List.map_cons] at h
      simp only [joinChars, List.map_cons, ← h]
      simp

theorem stringsSplit_nl (s : String) :
    stringsSplit s "\n" = (splitAux ['\n'] 0 s.data).map String.mk := by
  simp [stringsSplit]

theorem repeatN_space (n : Nat) : repeatN " " n = spaces n := by
  induction n with
  | zero => rfl
  | succ n ih =>
    rw [repeatN, ih]
    apply String.ext
    simp [spaces, List.replicate_succ]

/-- With an indent that is not negative `templateYAMLIndent` does not panic. -/
theorem templateYAMLIndent_ok (i : Int) (input : String) (hi : 0 ≤ i) :
    templateYAMLIndent i input =
      .ok (spaces i.toNat ++
        stringsJoin (stringsSplit input "\n") ("\n" ++ spaces i.toNat)) := by
  have h : ¬ i < 0 := not_lt.mpr hi
  simp only [templateYAMLIndent, stringsRepeat, h, if_false, repeatN_space]
  rfl

/-- The characters of an indented text: the lines of the input, each after the indent,
joined with line feeds. -/
theorem indent_data (n : Nat) (input : String) :
    (spaces n ++ stringsJoin (stringsSplit input "\n") ("\n" ++ spaces n)).data =
      joinChars ((splitAux ['\n'] 0 input.data).map (List.replicate n ' ' ++ ·)) ['\n'] := by
  rw [String.data_append, stringsJoin_data, stringsSplit_nl, ← joinChars_indent _ _
    (splitAux_nl_ne_nil _)]
  simp [spaces, Function.comp_def]

/-- The lines of an indented text are the lines of the input, each after the indent. -/
theorem stringsSplit_indent (n : Nat) (input : String) :
    stringsSplit (spaces n ++ stringsJoin (stringsSplit input "\n") ("\n" ++ spaces n)) "\n" =
      (stringsSplit input "\n").map (spaces n ++ ·) := by
  rw [stringsSplit_nl, indent_data, splitAux_nl_joinChars, stringsSplit_nl]
  · simp only [List.map_map]
    apply List.map_congr_left
    intro p _
    apply String.ext
    simp [spaces]
  · simpa using splitAux_nl_ne_nil input.data
  · intro p hp
    obtain ⟨q, hq, rfl⟩ := List.mem_map.1 hp
    have := splitAux_nl_no_nl input.data q hq
    simp only [List.mem_append, not_or]
    refine ⟨?_, this⟩
    intro h
    have := List.eq_of_mem_replicate h
    exact absurd this (by decide)

/-- Joining the lines of a text with line feeds gives the text back. -/
theorem stringsJoin_stringsSplit_nl (s : String) :
    stringsJoin (stringsSplit s "\n") "\n" = s := by
  apply String.ext
  rw [stringsJoin_data, stringsSplit_nl]
  simp only [List.map_map]
  have : (String.data ∘ String.mk) = id := by
    funext l
    rfl
  rw [this, List.map_id]
  exact joinChars_splitAux_nl s.data

theorem dropChars_spaces_append (n : Nat) (s : String) : dropChars n (spaces n ++ s) = s := by
  apply String.ext
  simp [dropChars, spaces]

theorem takeChars_spaces_append (n : Nat) (s : String) :
    takeChars n (spaces n ++ s) = spaces n := by
  apply String.ext
  simp [takeChars, spaces]

theorem splitAux_nl_snoc (l : List Char) :
    splitAux ['\n'] 0 (l ++ ['\n']) = splitAux ['\n'] 0 l ++ [[]] := by
  induction l with
  | nil => simp [splitAux, List.isPrefixOf]
  | cons c rest ih =>
    rw [List.cons_append, splitAux_nl_cons, splitAux_nl_cons, ih]
    obtain ⟨q, qs, h⟩ := List.exists_cons_of_ne_nil (splitAux_nl_ne_nil rest)
    rw [h]
    split_ifs <;> simp

theorem joinChars_snoc (lines : List (List Char)) (x sep : List Char) (hne : lines ≠ []) :
    joinChars (lines ++ [x]) sep = joinChars lines sep ++ sep ++ x := by
  induction lines with
  | nil => exact absurd rfl hne
  | cons a rest ih =>
    cases rest with
    | nil => simp [joinChars]
    | cons b rest =>
      have h := ih (by simp)
      simp only [List.cons_append] at h ⊢
      simp only [joinChars, h]
      simp

/-- Indenting a text that ends in one more line feed adds an indented empty line. -/
theorem indent_snoc_nl (n : Nat) (s : String) :
    spaces n ++ stringsJoin (stringsSplit (s ++ "\n") "\n") ("\n" ++ spaces n) =
      spaces n ++ stringsJoin (stringsSplit s "\n") ("\n" ++ spaces n) ++ "\n" ++ spaces n := by
  apply String.ext
  have h1 : (s ++ "\n").data = s.data ++ ['\n'] := by simp
  rw [indent_data, h1, splitAux_nl_snoc, List.map_append, List.map_singleton,
    joinChars_snoc _ _ _ (by simpa using splitAux_nl_ne_nil s.data)]
  have h2 := indent_data n s
  simp only [String.data_append] at h2 ⊢
  rw [h2]
  simp [spaces]

/-- C8. Indentation round trip: for every indent `i ≥ 0` and every text `block`,
`templateYAMLIndent i block` returns a text; every line of it (split at line feeds)
starts with `i` spaces, and removing the first `i` characters of every line and joining
the lines with line feeds again gives `block`, also when `block` is empty or ends in a
line feed. -/
theorem templateYAMLIndent_strip_roundtrip (i : Int) (block : String) (hi : 0 ≤ i) :
    ∃ out, templateYAMLIndent i block = .ok out ∧
      (∀ line ∈ stringsSplit out "\n", takeChars i.toNat line = spaces i.toNat) ∧
      stringsJoin ((stringsSplit out "\n").map (dropChars i.toNat)) "\n" = block := by
  refine ⟨_, templateYAMLIndent_ok i block hi, ?_, ?_⟩
  · intro line hline
    rw [stringsSplit_indent] at hline
    obtain ⟨l, _, rfl⟩ := List.mem_map.1 hline
    exact takeChars_spaces_append _ _
  · rw [stringsSplit_indent, List.map_map]
    have : (dropChars i.toNat ∘ fun x => spaces i.toNat ++ x) = id := by
      funext l
      exact dropChars_spaces_append _ _
    rw [this, List.map_id, stringsJoin_stringsSplit_nl]

theorem templateYAMLIndent_strip_roundtrip_witness :
    (0 : Int) ≤ 2 ∧ ∃ out, templateYAMLIndent 2 "a\n\nb\n" = .ok out ∧
      (∀ line ∈ stringsSplit out "\n", takeChars (2 : Int).toNat line = spaces (2 : Int).toNat) ∧
      stringsJoin ((stringsSplit out "\n").map (dropChars (2 : Int).toNat)) "\n" = "a\n\nb\n" :=
  ⟨by decide, templateYAMLIndent_strip_roundtrip 2 "a\n\nb\n" (by decide)⟩

/-- C9. For every indent `i ≥ 0` and every text `block`, `templateYAMLIndent i block`
returns a text that has as many lines (split at line feeds) as `block`, its `k`-th line
being `i` spaces followed by the `k`-th line of `block`, the first line included. So the
indented empty text is `i` spaces, and indenting `block` with a line feed added gives the
indented `block`, a line feed and `i` spaces. -/
theorem templateYAMLIndent_lines (i : Int) (block : String) (hi : 0 ≤ i) :
    ∃ out, templateYAMLIndent i block = .ok out ∧
      (stringsSplit out "\n").length = (stringsSplit block "\n").length ∧
      (∀ (k : Nat) (line : String), (stringsSplit block "\n")[k]? = some line →
        (stringsSplit out "\n")[k]? = some (spaces i.toNat ++ line)) ∧
      templateYAMLIndent i "" = .ok (spaces i.toNat) ∧
      templateYAMLIndent i (block ++ "\n") = .ok (out ++ "\n" ++ spaces i.toNat) := by
  refine ⟨_, templateYAMLIndent_ok i block hi, ?_, ?_, ?_, ?_⟩
  · rw [stringsSplit_indent, List.length_map]
  · intro k line hk
    rw [stringsSplit_indent, List.getElem?_map, hk]
    rfl
  · rw [templateYAMLIndent_ok i "" hi]
    congr 1
    apply String.ext
    simp [stringsSplit, splitAux, stringsJoin]
  · rw [templateYAMLIndent_ok i _ hi, indent_snoc_nl]

theorem templateYAMLIndent_lines_witness :
    (0 : Int) ≤ 3 ∧ ∃ out, templateYAMLIndent 3 "x\ny" = .ok out ∧
      (stringsSplit out "\n").length = (stringsSplit "x\ny" "\n").length ∧
      (∀ (k : Nat) (line : String), (stringsSplit "x\ny" "\n")[k]? = some line →
        (stringsSplit out "\n")[k]? = some (spaces (3 : Int).toNat ++ line)) ∧
      templateYAMLIndent 3 "" = .ok (spaces (3 : Int).toNat) ∧
      templateYAMLIndent 3 ("x\ny" ++ "\n") = .ok (out ++ "\n" ++ spaces (3 : Int).toNat) :=
  ⟨by decide, templateYAMLIndent_lines 3 "x\ny" (by decide)⟩

/-- C5. The init and the join validator agree: on inputs that hold the same eight
credential strings both return no error, or both return the error of the same
credential group, in the order cluster CA, etcd CA, front-proxy CA, service account.
The messages of the join validator are pairwise distinct, like those of the init
validator, so each names its group. -/
theorem validateCertificates_init_join_agree (a : ControlPlaneInput) (b : ContolPlaneJoinInput)
    (h1 : a.CACert = b.CACert) (h2 : a.CAKey = b.CAKey)
    (h3 : a.EtcdCACert = b.EtcdCACert) (h4 : a.EtcdCAKey = b.EtcdCAKey)
    (h5 : a.FrontProxyCACert = b.FrontProxyCACert)
    (h6 : a.FrontProxyCAKey = b.FrontProxyCAKey)
    (h7 : a.SaCert = b.SaCert) (h8 : a.SaKey = b.SaKey) :
    ((a.validateCertificates = none ∧ b.validateCertificates = none) ∨
      (a.validateCertificates =
          some "CA cert material in the ControlPlaneInput is missing cert/key" ∧
        b.validateCertificates =
          some "CA cert material in the ContolPlaneJoinInput is  missing cert/key") ∨
      (a.validateCertificates =
          some "ETCD CA cert material in the ControlPlaneInput is  missing cert/key" ∧
        b.validateCertificates =
          some "ETCD cert material in the ContolPlaneJoinInput is  missing cert/key") ∨
      (a.validateCertificates =
          some "FrontProxy CA cert material in ControlPlaneInput is  missing cert/key" ∧
        b.validateCertificates =
          some "FrontProxy cert material in ContolPlaneJoinInput is  missing cert/key") ∨
      (a.validateCertificates =
          some "ServiceAccount cert material in ControlPlaneInput is  missing cert/key" ∧
        b.validateCertificates =
          some "ServiceAccount cert material in ContolPlaneJoinInput is  missing cert/key")) ∧
    ("CA cert material in the ContolPlaneJoinInput is  missing cert/key" ≠
        "ETCD cert material in the ContolPlaneJoinInput is  missing cert/key" ∧
      "CA cert material in the ContolPlaneJoinInput is  missing cert/key" ≠
        "FrontProxy cert material in ContolPlaneJoinInput is  missing cert/key" ∧
      "CA cert material in the ContolPlaneJoinInput is  missing cert/key" ≠
        "ServiceAccount cert material in ContolPlaneJoinInput is  missing cert/key" ∧
      "ETCD cert material in the ContolPlaneJoinInput is  missing cert/key" ≠
        "FrontProxy cert material in ContolPlaneJoinInput is  missing cert/key" ∧
      "ETCD cert material in the ContolPlaneJoinInput is  missing cert/key" ≠
        "ServiceAccount cert material in ContolPlaneJoinInput is  missing cert/key" ∧
      "FrontProxy cert material in ContolPlaneJoinInput is  missing cert/key" ≠
        "ServiceAccount cert material in ContolPlaneJoinInput is  missing cert/key") := by
  refine ⟨?_, by decide⟩
  rw [ControlPlaneInput.validateCertificates_unfold,
    ContolPlaneJoinInput.validateCertificates_join_unfold, h1, h2, h3, h4, h5, h6, h7, h8]
  by_cases c1 : isKeyPairValid b.CACert b.CAKey = false
  · simp [c1]
  · by_cases c2 : isKeyPairValid b.EtcdCACert b.EtcdCAKey = false
    · simp [c1, c2]
    · by_cases c3 : isKeyPairValid b.FrontProxyCACert b.FrontProxyCAKey = false
      · simp [c1, c2, c3]
      · by_cases c4 : isKeyPairValid b.SaCert b.SaKey = false
        · simp [c1, c2, c3, c4]
        · simp [c1, c2, c3, c4]

theorem validateCertificates_init_join_agree_witness :
    ({ sampleInit with FrontProxyCAKey := "" } : ControlPlaneInput).validateCertificates =
        some "FrontProxy CA cert material in ControlPlaneInput is  missing cert/key" ∧
      ({ sampleJoin with FrontProxyCAKey := "" } : ContolPlaneJoinInput).validateCertificates =
        some "FrontProxy cert material in ContolPlaneJoinInput is  missing cert/key" := by
  have h := (validateCertificates_init_join_agree
    { sampleInit with FrontProxyCAKey := "" } { sampleJoin with FrontProxyCAKey := "" }
    rfl rfl rfl rfl rfl rfl rfl rfl).1
  rcases h with h | h | h | h | h
  · exact absurd h.1 (by decide)
  · exact absurd h.1 (by decide)
  · exact absurd h.1 (by decide)
  · exact h
  · exact absurd h.1 (by decide)

/-! ## Base64 -/

theorem shiftLeft_or_eq (a b k : Nat) (h : b < 2 ^ k) : (a <<< k) ||| b = a * 2 ^ k + b := by
  rw [Nat.shiftLeft_eq, Nat.mul_comm, ← Nat.mul_add_lt_is_or h]

theorem and_0x3F (x : Nat) : x &&& 0x3F = x % 64 :=
  Nat.and_pow_two_sub_one_eq_mod x 6

/-- The 24-bit group the encoder forms of three bytes. -/
theorem group3_eq (b0 b1 b2 : Nat) (h1 : b1 < 256) (h2 : b2 < 256) :
    (b0 <<< 16) ||| (b1 <<< 8) ||| b2 = b0 * 65536 + b1 * 256 + b2 := by
  have e1 : (b0 <<< 16) ||| (b1 <<< 8) = (b0 * 256 + b1) <<< 8 := by
    rw [shiftLeft_or_eq b0 (b1 <<< 8) 16 (by rw [Nat.shiftLeft_eq]; omega)]
    simp only [Nat.shiftLeft_eq]
    omega
  rw [e1, shiftLeft_or_eq _ b2 8 (by omega)]
  omega

theorem group2_eq (b0 b1 : Nat) (h1 : b1 < 256) :
    (b0 <<< 16) ||| (b1 <<< 8) = b0 * 65536 + b1 * 256 := by
  rw [shiftLeft_or_eq b0 (b1 <<< 8) 16 (by rw [Nat.shiftLeft_eq]; omega)]
  simp only [Nat.shiftLeft_eq]
  omega

/-- The 24-bit group the decoder forms of four 6-bit values. -/
theorem group4_eq (x y z w : Nat) (hy : y < 64) (hz : z < 64) (hw : w < 64) :
    (x <<< 18) ||| (y <<< 12) ||| (z <<< 6) ||| w =
      x * 262144 + y * 4096 + z * 64 + w := by
  have e1 : (x <<< 18) ||| (y <<< 12) = (x * 64 + y) <<< 12 := by
    rw [shiftLeft_or_eq x (y <<< 12) 18 (by rw [Nat.shiftLeft_eq]; omega)]
    simp only [Nat.shiftLeft_eq]
    omega
  have e2 : ((x * 64 + y) <<< 12) ||| (z <<< 6) = ((x * 64 + y) * 64 + z) <<< 6 := by
    rw [shiftLeft_or_eq _ (z <<< 6) 12 (by rw [Nat.shiftLeft_eq]; omega)]
    simp only [Nat.shiftLeft_eq]
    omega
  rw [e1, e2, shiftLeft_or_eq _ w 6 (by omega)]
  omega

theorem group4_three (x y z : Nat) (hy : y < 64) (hz : z < 64) :
    (x <<< 18) ||| (y <<< 12) ||| (z <<< 6) = x * 262144 + y * 4096 + z * 64 := by
  have := group4_eq x y z 0 hy hz (by omega)
  simpa using this

theorem group4_two (x y : Nat) (hy : y < 64) :
    (x <<< 18) ||| (y <<< 12) = x * 262144 + y * 4096 := by
  have := group4_three x y 0 hy (by omega)
  simpa using this

/-- The decoder's table inverts the encoder's. -/
theorem decChar_encChar : ∀ v, v < 64 → decChar (encChar v) = some v := by
  decide

theorem encChar_ne_pad : ∀ v, v < 64 → encChar v ≠ padChar := by
  decide

/-- The characters of the alphabet: `A`-`Z`, `a`-`z`, `0`-`9`, `+` and `/`. -/
theorem encChar_alphabet : ∀ v, v < 64 →
    ((encChar v).isUpper = true ∨ (encChar v).isLower = true ∨ (encChar v).isDigit = true ∨
      encChar v = '+' ∨ encChar v = '/') := by
  decide

theorem decodeQuanta_quantum (a b c d : Char) (rest : List Char) (hd : d ≠ padChar) :
    decodeQuanta (a :: b :: c :: d :: rest) =
      (decChar a).bind fun x => (decChar b).bind fun y => (decChar c).bind fun z =>
        (decChar d).bind fun w => (decodeQuanta rest).bind fun tail =>
          some ((((x <<< 18) ||| (y <<< 12) ||| (z <<< 6) ||| w) >>> 16) % 256 ::
            (((x <<< 18) ||| (y <<< 12) ||| (z <<< 6) ||| w) >>> 8) % 256 ::
            ((x <<< 18) ||| (y <<< 12) ||| (z <<< 6) ||| w) % 256 :: tail) := by
  rw [decodeQuanta, if_neg (fun h => hd h.2)]
  rfl

/-- Decoding what the encoder wrote gives the bytes back. -/
theorem decodeQuanta_encodeBytes (bs : List Nat) (h : ∀ b ∈ bs, b < 256) :
    decodeQuanta (encodeBytes bs) = some bs := by
  induction bs using encodeBytes.induct with
  | case1 => rfl
  | case2 b0 =>
    have h0 : b0 < 256 := h b0 (by simp)
    simp only [encodeBytes, and_0x3F, Nat.shiftRight_eq_div_pow, Nat.shiftLeft_eq]
    rw [decodeQuanta]
    simp only [and_self, if_true, decChar_encChar _ (Nat.mod_lt _ (by decide : 0 < 64)),
      Option.bind_eq_bind, Option.some_bind, group4_two _ _ (Nat.mod_lt _ (by decide : 0 < 64)),
      Nat.shiftRight_eq_div_pow]
    congr 2
    omega
  | case3 b0 b1 =>
    have h0 : b0 < 256 := h b0 (by simp)
    have h1 : b1 < 256 := h b1 (by simp)
    have hp : encChar ((b0 * 65536 + b1 * 256) / 2 ^ 6 % 64) ≠ padChar :=
      encChar_ne_pad _ (Nat.mod_lt _ (by decide : 0 < 64))
    simp only [encodeBytes, and_0x3F, Nat.shiftRight_eq_div_pow, group2_eq b0 b1 h1]
    rw [decodeQuanta]
    simp only [and_self, if_true, if_neg hp,
      decChar_encChar _ (Nat.mod_lt _ (by decide : 0 < 64)),
      Option.bind_eq_bind, Option.some_bind,
      group4_three _ _ _ (Nat.mod_lt _ (by decide : 0 < 64)) (Nat.mod_lt _ (by decide : 0 < 64)),
      Nat.shiftRight_eq_div_pow]
    congr 2
    · omega
    · congr 1
      omega
  | case4 b0 b1 b2 rest ih =>
    have h0 : b0 < 256 := h b0 (by simp)
    have h1 : b1 < 256 := h b1 (by simp)
    have h2 : b2 < 256 := h b2 (by simp)
    have hrest := ih (fun b hb => h b (by simp [hb]))
    have hp : encChar ((b0 * 65536 + b1 * 256 + b2) % 64) ≠ padChar :=
      encChar_ne_pad _ (Nat.mod_lt _ (by decide : 0 < 64))
    simp only [encodeBytes, and_0x3F, Nat.shiftRight_eq_div_pow, group3_eq b0 b1 b2 h1 h2]
    rw [decodeQuanta_quantum _ _ _ _ _ hp]
    simp only [decChar_encChar _ (Nat.mod_lt _ (by decide : 0 < 64)), hrest,
      Option.some_bind,
      group4_eq _ _ _ _ (Nat.mod_lt _ (by decide : 0 < 64)) (Nat.mod_lt _ (by decide : 0 < 64))
        (Nat.mod_lt _ (by decide : 0 < 64)),
      Nat.shiftRight_eq_div_pow]
    congr 2
    · omega
    · congr 1
      · omega
      · congr 1
        omega

/-- What the encoder writes: characters it looked up in the alphabet, then the padding;
four characters for every three bytes begun. -/
theorem encodeBytes_shape (bs : List Nat) :
    ∃ body, encodeBytes bs = body ++ List.replicate ((3 - bs.length % 3) % 3) padChar ∧
      (∀ c ∈ body, ∃ v, v < 64 ∧ c = encChar v) ∧
      (encodeBytes bs).length = 4 * ((bs.length + 2) / 3) := by
  have h64 : ∀ x : Nat, x % 64 < 64 := fun x => Nat.mod_lt _ (by decide)
  induction bs using encodeBytes.induct with
  | case1 => exact ⟨[], by simp [encodeBytes], by simp, by simp [encodeBytes]⟩
  | case2 b0 =>
    refine ⟨[encChar (((b0 <<< 16) >>> 18) &&& 0x3F), encChar (((b0 <<< 16) >>> 12) &&& 0x3F)],
      by simp [encodeBytes, List.replicate], ?_, by simp [encodeBytes]⟩
    intro c hc
    simp only [List.mem_cons, List.mem_singleton, List.not_mem_nil, or_false] at hc
    rcases hc with rfl | rfl
    · exact ⟨_, by rw [and_0x3F]; exact h64 _, rfl⟩
    · exact ⟨_, by rw [and_0x3F]; exact h64 _, rfl⟩
  | case3 b0 b1 =>
    refine ⟨[encChar ((((b0 <<< 16) ||| (b1 <<< 8)) >>> 18) &&& 0x3F),
        encChar ((((b0 <<< 16) ||| (b1 <<< 8)) >>> 12) &&& 0x3F),
        encChar ((((b0 <<< 16) ||| (b1 <<< 8)) >>> 6) &&& 0x3F)],
      by simp [encodeBytes, List.replicate], ?_, by simp [encodeBytes]⟩
    intro c hc
    simp only [List.mem_cons, List.mem_singleton, List.not_mem_nil, or_false] at hc
    rcases hc with rfl | rfl | rfl
    · exact ⟨_, by rw [and_0x3F]; exact h64 _, rfl⟩
    · exact ⟨_, by rw [and_0x3F]; exact h64 _, rfl⟩
    · exact ⟨_, by rw [and_0x3F]; exact h64 _, rfl⟩
  | case4 b0 b1 b2 rest ih =>
    obtain ⟨body, hbody, halpha, hlen⟩ := ih
    refine ⟨encChar ((((b0 <<< 16) ||| (b1 <<< 8) ||| b2) >>> 18) &&& 0x3F) ::
        encChar ((((b0 <<< 16) ||| (b1 <<< 8) ||| b2) >>> 12) &&& 0x3F) ::
        encChar ((((b0 <<< 16) ||| (b1 <<< 8) ||| b2) >>> 6) &&& 0x3F) ::
        encChar (((b0 <<< 16) ||| (b1 <<< 8) ||| b2) &&& 0x3F) :: body, ?_, ?_, ?_⟩
    · have : (rest.length + 1 + 1 + 1) % 3 = rest.length % 3 := by omega
      simp only [encodeBytes, hbody, List.length_cons, this, List.cons_append]
    · intro c hc
      simp only [List.mem_cons] at hc
      rcases hc with rfl | rfl | rfl | rfl | hc
      · exact ⟨_, by rw [and_0x3F]; exact h64 _, rfl⟩
      · exact ⟨_, by rw [and_0x3F]; exact h64 _, rfl⟩
      · exact ⟨_, by rw [and_0x3F]; exact h64 _, rfl⟩
      · exact ⟨_, by rw [and_0x3F]; exact h64 _, rfl⟩
      · exact halpha c hc
    · simp only [encodeBytes, List.length_cons, hlen]
      omega

theorem encChar_not_blank : ∀ v, v < 64 →
    ((encChar v).isWhitespace = false ∧ encChar v ≠ '\r' ∧ encChar v ≠ '\n') := by
  decide

/-- The encoder writes no blank, so the decoder passes over nothing. -/
theorem encodeBytes_not_blank (bs : List Nat) :
    ∀ c ∈ encodeBytes bs, c.isWhitespace = false ∧ c ≠ '\r' ∧ c ≠ '\n' := by
  obtain ⟨body, hbody, halpha, _⟩ := encodeBytes_shape bs
  intro c hc
  rw [hbody] at hc
  rcases List.mem_append.1 hc with h | h
  · obtain ⟨v, hv, rfl⟩ := halpha c h
    exact encChar_not_blank v hv
  · rw [List.eq_of_mem_replicate h]
    decide

theorem bytesOf_lt (s : String) : ∀ b ∈ bytesOf s, b < 256 := by
  intro b hb
  obtain ⟨u, _, rfl⟩ := List.mem_map.1 hb
  exact u.val.isLt

/-- The round trip on bytes: the decoder returns every list of bytes the encoder was
given, whether or not the bytes are the UTF-8 encoding of a text. -/
theorem EncodeToString_roundtrip (bs : List Nat) (h : ∀ b ∈ bs, b < 256) :
    DecodeString (EncodeToString bs) = some bs := by
  have hf : (encodeBytes bs).filter (fun c => c != '\r' && c != '\n') = encodeBytes bs := by
    apply List.filter_eq_self.2
    intro c hc
    have := encodeBytes_not_blank _ c hc
    simp [this.2.1, this.2.2]
  simp only [DecodeString, EncodeToString, hf]
  exact decodeQuanta_encodeBytes bs h

/-- C6. Base64 round trip: for every text `s`, the empty one and those with non-ASCII
bytes included, the standard padded decoder accepts `templateBase64Encode s` and
returns exactly the bytes of `s`. -/
theorem templateBase64Encode_roundtrip (s : String) :
    DecodeString (templateBase64Encode s) = some (bytesOf s) :=
  EncodeToString_roundtrip (bytesOf s) (bytesOf_lt s)

/-- C7. For every text `s` of `n` bytes, `templateBase64Encode s` has `4 * ⌈n / 3⌉`
characters: characters of the standard alphabet (`A`-`Z`, `a`-`z`, `0`-`9`, `+`, `/`)
followed by `(3 - n mod 3) mod 3` padding characters `=`; none of them is a line feed
or another blank. -/
theorem templateBase64Encode_shape (s : String) :
    (templateBase64Encode s).length = 4 * (((bytesOf s).length + 2) / 3) ∧
    (∃ body, (templateBase64Encode s).data =
        body ++ List.replicate ((3 - (bytesOf s).length % 3) % 3) '=' ∧
      ∀ c ∈ body, c.isUpper = true ∨ c.isLower = true ∨ c.isDigit = true ∨
        c = '+' ∨ c = '/') ∧
    ∀ c ∈ (templateBase64Encode s).data, c.isWhitespace = false ∧ c ≠ '\n' := by
  obtain ⟨body, hbody, halpha, hlen⟩ := encodeBytes_shape (bytesOf s)
  refine ⟨hlen, ⟨body, hbody, ?_⟩, ?_⟩
  · intro c hc
    obtain ⟨v, hv, rfl⟩ := halpha c hc
    exact encChar_alphabet v hv
  · intro c hc
    have := encodeBytes_not_blank _ c hc
    exact ⟨this.1, this.2.2⟩

/-! ## Rendering -/

set_option maxRecDepth 100000 in
/-- The parser reads `controlPlaneCloudInit` as `controlPlaneNodes`. -/
theorem parseTemplate_controlPlaneCloudInit :
    parseTemplate ["Base64Encode", "Indent"] controlPlaneCloudInit = .ok controlPlaneNodes := by
  rfl

set_option maxRecDepth 100000 in
/-- The parser reads `controlPlaneJoinCloudInit` as `controlPlaneJoinNodes`. -/
theorem parseTemplate_controlPlaneJoinCloudInit :
    parseTemplate ["Base64Encode", "Indent"] controlPlaneJoinCloudInit = .ok controlPlaneJoinNodes := by
  rfl

set_option maxRecDepth 100000 in
/-- The parser reads `cloudConfig` as `cloudConfigNodes`. -/
theorem parseTemplate_cloudConfig :
    parseTemplate [] cloudConfig = .ok cloudConfigNodes := by
  rfl

theorem templateYAMLIndent_six (s : String) : templateYAMLIndent 6 s = .ok (indentText 6 s) :=
  templateYAMLIndent_ok 6 s (by decide)

theorem ok_bind {ε α β : Type} (a : α) (f : α → Except ε β) :
    (Except.ok a >>= f) = f a := rfl

theorem rangeOver_ok (body : String → Except String String) (f : String → String)
    (h : ∀ x, body x = .ok (f x)) (xs : List String) :
    rangeOver body xs = .ok (concatAll (xs.map f)) := by
  induction xs with
  | nil => rfl
  | cons x xs ih =>
    simp only [rangeOver, h, ih, List.map_cons, concatAll]
    rfl

/-- A list of nodes renders to the texts of its nodes, one after the other. -/
theorem execList_cons_ok (funcs : funcMap) (data : Fields) (n : Node) (ns : List Node)
    (dot : Option Value) (a b : String) (hn : execNode funcs data n dot = .ok a)
    (hns : execList funcs data ns dot = .ok b) :
    execList funcs data (n :: ns) dot = .ok (a ++ b) := by
  simp only [execList, hn, hns, ok_bind]
  rfl

theorem execList_nil (funcs : funcMap) (data : Fields) (dot : Option Value) :
    execList funcs data [] dot = .ok "" := by
  simp only [execList]

theorem execNode_text (funcs : funcMap) (data : Fields) (s : String) (dot : Option Value) :
    execNode funcs data (.text s) dot = .ok s := by
  simp only [execNode]

/-- The action `{{.Name}}` prints a text field as it stands. -/
theorem execNode_field (funcs : funcMap) (data : Fields) (name s : String)
    (h : data.lookup name = some (.str s)) :
    execNode funcs data (.action [.operand (.field name)]) none = .ok s := by
  simp only [execNode, evalPipeline, evalCommand, evalOperand, h, ok_bind]
  rfl

/-- The action `{{.}}` inside a range prints the element as it stands. -/
theorem execNode_dot (funcs : funcMap) (data : Fields) (x : String) :
    execNode funcs data (.action [.operand .dot]) (some (.str x)) = .ok x := by
  simp only [execNode, evalPipeline, evalCommand, evalOperand, ok_bind]
  rfl

/-- The action `{{.Name | Base64Encode}}` prints the encoded field. -/
theorem execNode_base64 (data : Fields) (name s : String)
    (h : data.lookup name = some (.str s)) :
    execNode controlPlaneFuncs data
      (.action [.operand (.field name), .call "Base64Encode" []]) none =
      .ok (templateBase64Encode s) := by
  have hf : controlPlaneFuncs.lookup "Base64Encode" = some base64EncodeFunc := by rfl
  simp only [execNode, evalPipeline, evalCommand, evalOperand, evalArgs, h, hf, ok_bind]
  rfl

/-- The action `{{.Name | Indent 6}}` prints the indented field. -/
theorem execNode_indent (data : Fields) (name s : String)
    (h : data.lookup name = some (.str s)) :
    execNode controlPlaneFuncs data
      (.action [.operand (.field name), .call "Indent" [.num 6]]) none =
      .ok (indentText 6 s) := by
  have hf : controlPlaneFuncs.lookup "Indent" = some indentFunc := by rfl
  simp only [execNode, evalPipeline, evalCommand, evalOperand, evalArgs, h, hf, ok_bind]
  simp only [Option.toList, List.cons_append, List.nil_append, indentFunc,
    templateYAMLIndent_six]
  rfl

/-- The block of the authorized keys: left out for an empty list. -/
theorem execNode_sshKeys (funcs : funcMap) (data : Fields) (keys : List String)
    (h : data.lookup "SSHAuthorizedKeys" = some (.strs keys)) :
    execNode funcs data
      (.cond [.operand (.field "SSHAuthorizedKeys")]
        [.text "ssh_authorized_keys:",
          .range [.operand (.field "SSHAuthorizedKeys")]
            [.text "\n- \"", .action [.operand .dot], .text "\""]]) none =
      .ok (sshKeysBlock keys) := by
  have hbody : ∀ x, execList funcs data
      [.text "\n- \"", .action [.operand .dot], .text "\""] (some (.str x)) =
      .ok ((fun k => "\n- \"" ++ k ++ "\"") x) := by
    intro x
    rw [execList_cons_ok _ _ _ _ _ _ _ (execNode_text _ _ _ _)
      (execList_cons_ok _ _ _ _ _ _ _ (execNode_dot _ _ _)
        (execList_cons_ok _ _ _ _ _ _ _ (execNode_text _ _ _ _) (execList_nil _ _ _)))]
    exact congrArg Except.ok (String.ext (by simp))
  have hrange : execNode funcs data
      (.range [.operand (.field "SSHAuthorizedKeys")]
        [.text "\n- \"", .action [.operand .dot], .text "\""]) none =
      .ok (concatAll (keys.map fun k => "\n- \"" ++ k ++ "\"")) := by
    simp only [execNode, evalPipeline, evalCommand, evalOperand, h, ok_bind]
    exact rangeOver_ok _ _ hbody keys
  simp only [execNode, evalPipeline, evalCommand, evalOperand, h, ok_bind, truth, sshKeysBlock]
  cases keys with
  | nil => simp
  | cons k ks =>
    simp only [List.isEmpty_cons, Bool.not_false, if_true, Bool.false_eq_true, if_false]
    rw [execList_cons_ok _ _ _ _ _ _ _ (execNode_text _ _ _ _)
      (execList_cons_ok _ _ _ _ _ _ _ hrange (execList_nil _ _ _))]
    exact congrArg Except.ok (String.ext (by simp))

theorem pure_eq_ok {ε α : Type} (a : α) : (pure a : Except ε α) = Except.ok a := rfl

/-- The template `controlPlaneCloudInit` renders on every input, to the document
`controlPlaneDocument`. -/
theorem execList_controlPlaneNodes (input : ControlPlaneInput) :
    execList controlPlaneFuncs input.fields controlPlaneNodes none =
      .ok (controlPlaneDocument input) := by
  have h1 : "\n\nwrite_files:\n-   path: /etc/test/pki/ca.crt\n    encoding: \"base64\"\n    owner: root:root\n    permissions: '0640'\n    content: |\n      " =
      "\n\nwrite_files:\n" ++ ("-   path: " ++ "/etc/test/pki/ca.crt" ++
        "\n    encoding: \"base64\"\n    owner: root:root\n    permissions: '" ++ "0640" ++
        "'\n    content: |\n      ") := by
    decide
  have h2 : "\n\n-   path: /etc/test/pki/ca.key\n    encoding: \"base64\"\n    owner: root:root\n    permissions: '0600'\n    content: |\n      " =
      "\n\n" ++ ("-   path: " ++ "/etc/test/pki/ca.key" ++
        "\n    encoding: \"base64\"\n    owner: root:root\n    permissions: '" ++ "0600" ++
        "'\n    content: |\n      ") := by
    decide
  have h3 : "\n\n-   path: /etc/test/pki/etcd/ca.crt\n    encoding: \"base64\"\n    owner: root:root\n    permissions: '0640'\n    content: |\n      " =
      "\n\n" ++ ("-   path: " ++ "/etc/test/pki/etcd/ca.crt" ++
        "\n    encoding: \"base64\"\n    owner: root:root\n    permissions: '" ++ "0640" ++
        "'\n    content: |\n      ") := by
    decide
  have h4 : "\n\n-   path: /etc/test/pki/etcd/ca.key\n    encoding: \"base64\"\n    owner: root:root\n    permissions: '0600'\n    content: |\n      " =
      "\n\n" ++ ("-   path: " ++ "/etc/test/pki/etcd/ca.key" ++
        "\n    encoding: \"base64\"\n    owner: root:root\n    permissions: '" ++ "0600" ++
        "'\n    content: |\n      ") := by
    decide
  have h5 : "\n\n-   path: /etc/test/pki/front-proxy-ca.crt\n    encoding: \"base64\"\n    owner: root:root\n    permissions: '0640'\n    content: |\n      " =
      "\n\n" ++ ("-   path: " ++ "/etc/test/pki/front-proxy-ca.crt" ++
        "\n    encoding: \"base64\"\n    owner: root:root\n    permissions: '" ++ "0640" ++
        "'\n    content: |\n      ") := by
    decide
  have h6 : "\n\n-   path: /etc/test/pki/front-proxy-ca.key\n    encoding: \"base64\"\n    owner: root:root\n    permissions: '0600'\n    content: |\n      " =
      "\n\n" ++ ("-   path: " ++ "/etc/test/pki/front-proxy-ca.key" ++
        "\n    encoding: \"base64\"\n    owner: root:root\n    permissions: '" ++ "0600" ++
        "'\n    content: |\n      ") := by
    decide
  have h7 : "\n\n-   path: /etc/test/pki/sa.pub\n    encoding: \"base64\"\n    owner: root:root\n    permissions: '0640'\n    content: |\n      " =
      "\n\n" ++ ("-   path: " ++ "/etc/test/pki/sa.pub" ++
        "\n    encoding: \"base64\"\n    owner: root:root\n    permissions: '" ++ "0640" ++
        "'\n    content: |\n      ") := by
    decide
  have h8 : "\n\n-   path: /etc/test/pki/sa.key\n    encoding: \"base64\"\n    owner: root:root\n    permissions: '0600'\n    content: |\n      " =
      "\n\n" ++ ("-   path: " ++ "/etc/test/pki/sa.key" ++
        "\n    encoding: \"base64\"\n    owner: root:root\n    permissions: '" ++ "0600" ++
        "'\n    content: |\n      ") := by
    decide
  have h9 : "\n\n-   path: /etc/kubernetes/vsphere.conf\n    encoding: \"base64\"\n    owner: root:root\n    permissions: '0600'\n    content: |\n      " =
      "\n\n" ++ ("-   path: " ++ "/etc/kubernetes/vsphere.conf" ++
        "\n    encoding: \"base64\"\n    owner: root:root\n    permissions: '" ++ "0600" ++
        "'\n    content: |\n      ") := by
    decide
  have h10 : "\n\n-   path: /tmp/kubeadm.yaml\n    owner: root:root\n\tpermissions: '0640'\n\tcontent: |\n      ---\n" =
      "\n\n" ++ ("-   path: /tmp/kubeadm.yaml\n    owner: root:root\n\tpermissions: '0640'\n\tcontent: |\n" ++
        "      ---\n") := by
    decide
  simp only [controlPlaneNodes, execList, execNode_text, ok_bind, pure_eq_ok,
    execNode_field controlPlaneFuncs input.fields "Header" input.Header rfl,
    execNode_sshKeys controlPlaneFuncs input.fields input.SSHAuthorizedKeys rfl,
    execNode_base64 input.fields "CACert" input.CACert rfl,
    execNode_base64 input.fields "CAKey" input.CAKey rfl,
    execNode_base64 input.fields "EtcdCACert" input.EtcdCACert rfl,
    execNode_base64 input.fields "EtcdCAKey" input.EtcdCAKey rfl,
    execNode_base64 input.fields "FrontProxyCACert" input.FrontProxyCACert rfl,
    execNode_base64 input.fields "FrontProxyCAKey" input.FrontProxyCAKey rfl,
    execNode_base64 input.fields "SaCert" input.SaCert rfl,
    execNode_base64 input.fields "SaKey" input.SaKey rfl,
    execNode_base64 input.fields "CloudConfig" input.CloudConfig rfl,
    execNode_indent input.fields "ClusterConfiguration" input.ClusterConfiguration rfl,
    execNode_indent input.fields "InitConfiguration" input.InitConfiguration rfl]
  rw [h1, h2, h3, h4, h5, h6, h7, h8, h9, h10]
  simp only [controlPlaneDocument, base64Entries, base64Entry, kubeadmInitTail,
    String.append_assoc, String.append_empty]

/-- Rendering `controlPlaneCloudInit` never fails: every field and function the template
names is there, and the indent it asks for is `6`. -/
theorem generateWithFuncs_controlPlaneCloudInit (input : ControlPlaneInput) :
    generateWithFuncs "controlplane" controlPlaneCloudInit controlPlaneFuncs input.fields =
      (controlPlaneDocument input, none) := by
  have hnames : controlPlaneFuncs.map Prod.fst = ["Base64Encode", "Indent"] := rfl
  simp only [generateWithFuncs, hnames, parseTemplate_controlPlaneCloudInit,
    execList_controlPlaneNodes]

/-- The validator does not read the header. -/
theorem ControlPlaneInput.validateCertificates_header (hdr : String)
    (input : ControlPlaneInput) :
    ({ input with Header := hdr } : ControlPlaneInput).validateCertificates =
      input.validateCertificates := rfl

/-- What `NewControlPlane` returns: on a validation error the wrapped error and no text,
otherwise the rendered document and no error. -/
theorem NewControlPlane_eq (hdr : String) (input : ControlPlaneInput) :
    NewControlPlane hdr input =
      match input.validateCertificates with
      | some err =>
        ({ input with Header := hdr }, "", some ("ControlPlaneInput is invalid: " ++ err))
      | none =>
        ({ input with Header := hdr }, controlPlaneDocument { input with Header := hdr },
          none) := by
  simp only [NewControlPlane, ControlPlaneInput.validateCertificates_header,
    generateWithFuncs_controlPlaneCloudInit]
  cases input.validateCertificates <;> rfl

/-- C1. `NewControlPlane` returns an error if and only if one of the eight credential
strings (the members of the four pairs) is empty. When it returns an error, the text is
empty and the message is `ControlPlaneInput is invalid: ` followed by the message of
`validateCertificates`. With a complete CA pair and an empty `EtcdCAKey` the message
names the ETCD CA group. -/
theorem NewControlPlane_error_iff (hdr : String) (input : ControlPlaneInput) :
    ((NewControlPlane hdr input).2.2 ≠ none ↔
      (input.CACert = "" ∨ input.CAKey = "") ∨
      (input.EtcdCACert = "" ∨ input.EtcdCAKey = "") ∨
      (input.FrontProxyCACert = "" ∨ input.FrontProxyCAKey = "") ∨
      (input.SaCert = "" ∨ input.SaKey = "")) ∧
    (∀ msg, (NewControlPlane hdr input).2.2 = some msg →
      (NewControlPlane hdr input).2.1 = "" ∧
      ∃ cause, input.validateCertificates = some cause ∧
        msg = "ControlPlaneInput is invalid: " ++ cause) ∧
    (input.CACert ≠ "" → input.CAKey ≠ "" → input.EtcdCAKey = "" →
      (NewControlPlane hdr input).2.2 =
        some ("ControlPlaneInput is invalid: " ++
          "ETCD CA cert material in the ControlPlaneInput is  missing cert/key")) := by
  rw [NewControlPlane_eq]
  refine ⟨?_, ?_, ?_⟩
  · have h := ControlPlaneInput.validateCertificates_none_iff input
    cases hv : input.validateCertificates with
    | none =>
      have := h.1 hv
      simp [this]
    | some err =>
      simp only [ne_eq, reduceCtorEq, not_false_eq_true, true_iff]
      by_contra hc
      simp only [not_or] at hc
      have : input.validateCertificates = none :=
        h.2 ⟨hc.1.1, hc.1.2, hc.2.1.1, hc.2.1.2, hc.2.2.1.1, hc.2.2.1.2, hc.2.2.2.1, hc.2.2.2.2⟩
      rw [hv] at this
      exact absurd this (by simp)
  · intro msg hmsg
    cases hv : input.validateCertificates with
    | none =>
      rw [hv] at hmsg
      exact absurd hmsg (by simp)
    | some err =>
      rw [hv] at hmsg
      simp only [Option.some.injEq] at hmsg
      exact ⟨rfl, err, rfl, hmsg.symm⟩
  · intro h1 h2 h3
    have hca : isKeyPairValid input.CACert input.CAKey = true :=
      (isKeyPairValid_eq_true_iff _ _).2 ⟨h1, h2⟩
    have hetcd : isKeyPairValid input.EtcdCACert input.EtcdCAKey = false :=
      (isKeyPairValid_eq_false_iff _ _).2 (Or.inr h3)
    rw [ControlPlaneInput.validateCertificates_unfold]
    simp [hca, hetcd]

/-- C10. For every input that passes validation, `NewControlPlane` returns no error and
a document that holds, after the line `write_files:` and in this order, the entries for
`/etc/test/pki/ca.crt`, `ca.key`, `etcd/ca.crt`, `etcd/ca.key`, `front-proxy-ca.crt`,
`front-proxy-ca.key`, `sa.pub`, `sa.key` and `/etc/kubernetes/vsphere.conf`; each is
marked `encoding: "base64"`, its content line is six spaces and `templateBase64Encode`
of `CACert`, `CAKey`, `EtcdCACert`, `EtcdCAKey`, `FrontProxyCACert`, `FrontProxyCAKey`,
`SaCert`, `SaKey` and `CloudConfig` in turn, with permissions `'0640'` on the certificate
entries and `'0600'` on the key entries and on `vsphere.conf`. -/
theorem NewControlPlane_write_files (hdr : String) (input : ControlPlaneInput)
    (hvalid : input.validateCertificates = none) :
    (NewControlPlane hdr input).2.2 = none ∧
    ∃ pre post, (NewControlPlane hdr input).2.1 =
      pre ++ "write_files:\n" ++
      base64Entry "/etc/test/pki/ca.crt" "0640" (templateBase64Encode input.CACert) ++
      base64Entry "/etc/test/pki/ca.key" "0600" (templateBase64Encode input.CAKey) ++
      base64Entry "/etc/test/pki/etcd/ca.crt" "0640" (templateBase64Encode input.EtcdCACert) ++
      base64Entry "/etc/test/pki/etcd/ca.key" "0600" (templateBase64Encode input.EtcdCAKey) ++
      base64Entry "/etc/test/pki/front-proxy-ca.crt" "0640"
        (templateBase64Encode input.FrontProxyCACert) ++
      base64Entry "/etc/test/pki/front-proxy-ca.key" "0600"
        (templateBase64Encode input.FrontProxyCAKey) ++
      base64Entry "/etc/test/pki/sa.pub" "0640" (templateBase64Encode input.SaCert) ++
      base64Entry "/etc/test/pki/sa.key" "0600" (templateBase64Encode input.SaKey) ++
      base64Entry "/etc/kubernetes/vsphere.conf" "0600"
        (templateBase64Encode input.CloudConfig) ++
      post := by
  rw [NewControlPlane_eq, hvalid]
  refine ⟨rfl, hdr ++ "\n" ++ sshKeysBlock input.SSHAuthorizedKeys ++ "\n\n",
    kubeadmInitTail input.ClusterConfiguration input.InitConfiguration, ?_⟩
  have hw : "\n\nwrite_files:\n" = "\n\n" ++ "write_files:\n" := by decide
  simp only [controlPlaneDocument, base64Entries, hw, String.append_assoc]

theorem NewControlPlane_write_files_witness :
    sampleInit.validateCertificates = none ∧
    (NewControlPlane "#cloud-config" sampleInit).2.2 = none ∧
    ∃ pre post, (NewControlPlane "#cloud-config" sampleInit).2.1 =
      pre ++ "write_files:\n" ++
      base64Entry "/etc/test/pki/ca.crt" "0640" (templateBase64Encode sampleInit.CACert) ++
      base64Entry "/etc/test/pki/ca.key" "0600" (templateBase64Encode sampleInit.CAKey) ++
      base64Entry "/etc/test/pki/etcd/ca.crt" "0640"
        (templateBase64Encode sampleInit.EtcdCACert) ++
      base64Entry "/etc/test/pki/etcd/ca.key" "0600"
        (templateBase64Encode sampleInit.EtcdCAKey) ++
      base64Entry "/etc/test/pki/front-proxy-ca.crt" "0640"
        (templateBase64Encode sampleInit.FrontProxyCACert) ++
      base64Entry "/etc/test/pki/front-proxy-ca.key" "0600"
        (templateBase64Encode sampleInit.FrontProxyCAKey) ++
      base64Entry "/etc/test/pki/sa.pub" "0640" (templateBase64Encode sampleInit.SaCert) ++
      base64Entry "/etc/test/pki/sa.key" "0600" (templateBase64Encode sampleInit.SaKey) ++
      base64Entry "/etc/kubernetes/vsphere.conf" "0600"
        (templateBase64Encode sampleInit.CloudConfig) ++
      post :=
  ⟨by decide, NewControlPlane_write_files "#cloud-config" sampleInit (by decide)⟩


/-- The spec's example: the sample input with `EtcdCAKey` emptied gives the error that
names the ETCD CA group, and no document. -/
theorem NewControlPlane_sample_etcd :
    (NewControlPlane "#cloud-config" { sampleInit with EtcdCAKey := "" }).2 =
      ("", some ("ControlPlaneInput is invalid: " ++
        "ETCD CA cert material in the ControlPlaneInput is  missing cert/key")) := by
  decide


/-- The template `controlPlaneJoinCloudInit` renders on every input, to the document
`controlPlaneJoinDocument`. -/
theorem execList_controlPlaneJoinNodes (input : ContolPlaneJoinInput) :
    execList controlPlaneFuncs input.fields controlPlaneJoinNodes none =
      .ok (controlPlaneJoinDocument input) := by
  have h1 : "\n\nwrite_files:\n-   path: /etc/test/pki/ca.crt\n    encoding: \"base64\"\n    owner: root:root\n    permissions: '0640'\n    content: |\n      " =
      "\n\nwrite_files:\n" ++ ("-   path: " ++ "/etc/test/pki/ca.crt" ++
        "\n    encoding: \"base64\"\n    owner: root:root\n    permissions: '" ++ "0640" ++
        "'\n    content: |\n      ") := by
    decide
  have h2 : "\n\n-   path: /etc/test/pki/ca.key\n    encoding: \"base64\"\n    owner: root:root\n    permissions: '0600'\n    content: |\n      " =
      "\n\n" ++ ("-   path: " ++ "/etc/test/pki/ca.key" ++
        "\n    encoding: \"base64\"\n    owner: root:root\n    permissions: '" ++ "0600" ++
        "'\n    content: |\n      ") := by
    decide
  have h3 : "\n\n-   path: /etc/test/pki/etcd/ca.crt\n    encoding: \"base64\"\n    owner: root:root\n    permissions: '0640'\n    content: |\n      " =
      "\n\n" ++ ("-   path: " ++ "/etc/test/pki/etcd/ca.crt" ++
        "\n    encoding: \"base64\"\n    owner: root:root\n    permissions: '" ++ "0640" ++
        "'\n    content: |\n      ") := by
    decide
  have h4 : "\n\n-   path: /etc/test/pki/etcd/ca.key\n    encoding: \"base64\"\n    owner: root:root\n    permissions: '0600'\n    content: |\n      " =
      "\n\n" ++ ("-   path: " ++ "/etc/test/pki/etcd/ca.key" ++
        "\n    encoding: \"base64\"\n    owner: root:root\n    permissions: '" ++ "0600" ++
        "'\n    content: |\n      ") := by
    decide
  have h5 : "\n\n-   path: /etc/test/pki/front-proxy-ca.crt\n    encoding: \"base64\"\n    owner: root:root\n    permissions: '0640'\n    content: |\n      " =
      "\n\n" ++ ("-   path: " ++ "/etc/test/pki/front-proxy-ca.crt" ++
        "\n    encoding: \"base64\"\n    owner: root:root\n    permissions: '" ++ "0640" ++
        "'\n    content: |\n      ") := by
    decide
  have h6 : "\n\n-   path: /etc/test/pki/front-proxy-ca.key\n    encoding: \"base64\"\n    owner: root:root\n    permissions: '0600'\n    content: |\n      " =
      "\n\n" ++ ("-   path: " ++ "/etc/test/pki/front-proxy-ca.key" ++
        "\n    encoding: \"base64\"\n    owner: root:root\n    permissions: '" ++ "0600" ++
        "'\n    content: |\n      ") := by
    decide
  have h7 : "\n\n-   path: /etc/test/pki/sa.pub\n    encoding: \"base64\"\n    owner: root:root\n    permissions: '0640'\n    content: |\n      " =
      "\n\n" ++ ("-   path: " ++ "/etc/test/pki/sa.pub" ++
        "\n    encoding: \"base64\"\n    owner: root:root\n    permissions: '" ++ "0640" ++
        "'\n    content: |\n      ") := by
    decide
  have h8 : "\n\n-   path: /etc/test/pki/sa.key\n    encoding: \"base64\"\n    owner: root:root\n    permissions: '0600'\n    content: |\n      " =
      "\n\n" ++ ("-   path: " ++ "/etc/test/pki/sa.key" ++
        "\n    encoding: \"base64\"\n    owner: root:root\n    permissions: '" ++ "0600" ++
        "'\n    content: |\n      ") := by
    decide
  have h9 : "\n\n-   path: /etc/kubernetes/vsphere.conf\n    encoding: \"base64\"\n    owner: root:root\n    permissions: '0600'\n    content: |\n      " =
      "\n\n" ++ ("-   path: " ++ "/etc/kubernetes/vsphere.conf" ++
        "\n    encoding: \"base64\"\n    owner: root:root\n    permissions: '" ++ "0600" ++
        "'\n    content: |\n      ") := by
    decide
  have h10 : "\n\n-   path: /tmp/kubeadm-controlplane-join-config.yaml\n    owner: root:root\n    permissions: '0640'\n    content: |\n" =
      "\n\n" ++ ("-   path: /tmp/kubeadm-controlplane-join-config.yaml\n    owner: root:root\n" ++
        "    permissions: '0640'\n    content: |\n") := by
    decide
  simp only [controlPlaneJoinNodes, execList, execNode_text, ok_bind, pure_eq_ok,
    execNode_field controlPlaneFuncs input.fields "Header" input.Header rfl,
    execNode_sshKeys controlPlaneFuncs input.fields input.SSHAuthorizedKeys rfl,
    execNode_base64 input.fields "CACert" input.CACert rfl,
    execNode_base64 input.fields "CAKey" input.CAKey rfl,
    execNode_base64 input.fields "EtcdCACert" input.EtcdCACert rfl,
    execNode_base64 input.fields "EtcdCAKey" input.EtcdCAKey rfl,
    execNode_base64 input.fields "FrontProxyCACert" input.FrontProxyCACert rfl,
    execNode_base64 input.fields "FrontProxyCAKey" input.FrontProxyCAKey rfl,
    execNode_base64 input.fields "SaCert" input.SaCert rfl,
    execNode_base64 input.fields "SaKey" input.SaKey rfl,
    execNode_base64 input.fields "CloudConfig" input.CloudConfig rfl,
    execNode_indent input.fields "JoinConfiguration" input.JoinConfiguration rfl]
  rw [h1, h2, h3, h4, h5, h6, h7, h8, h9, h10]
  simp only [controlPlaneJoinDocument, base64Entries, base64Entry, kubeadmJoinTail,
    String.append_assoc, String.append_empty]

/-- Rendering `controlPlaneJoinCloudInit` never fails. -/
theorem generateWithFuncs_controlPlaneJoinCloudInit (input : ContolPlaneJoinInput) :
    generateWithFuncs "controlplane" controlPlaneJoinCloudInit controlPlaneFuncs input.fields =
      (controlPlaneJoinDocument input, none) := by
  have hnames : controlPlaneFuncs.map Prod.fst = ["Base64Encode", "Indent"] := rfl
  simp only [generateWithFuncs, hnames, parseTemplate_controlPlaneJoinCloudInit,
    execList_controlPlaneJoinNodes]

/-- The join validator does not read the header. -/
theorem ContolPlaneJoinInput.validateCertificates_join_header (hdr : String)
    (input : ContolPlaneJoinInput) :
    ({ input with Header := hdr } : ContolPlaneJoinInput).validateCertificates =
      input.validateCertificates := rfl

/-- What `JoinControlPlane` returns: on a validation error the wrapped error and no text,
otherwise the rendered document and no error. -/
theorem JoinControlPlane_eq (hdr : String) (input : ContolPlaneJoinInput) :
    JoinControlPlane hdr input =
      match input.validateCertificates with
      | some err =>
        ({ input with Header := hdr }, "", some ("ControlPlaneInput is invalid: " ++ err))
      | none =>
        ({ input with Header := hdr }, controlPlaneJoinDocument { input with Header := hdr },
          none) := by
  simp only [JoinControlPlane, ContolPlaneJoinInput.validateCertificates_join_header,
    generateWithFuncs_controlPlaneJoinCloudInit]
  cases input.validateCertificates <;> rfl

/-- The template `cloudConfig` renders on every input, to the document
`cloudConfigDocument`. -/
theorem execList_cloudConfigNodes (input : CloudConfigInput) :
    execList [] input.fields cloudConfigNodes none = .ok (cloudConfigDocument input) := by
  have h1 : "\"\ninsecure-flag = \"1\" # set to 1 if the vCenter uses a self-signed cert\ndatacenters = \"" =
      "\"\ninsecure-flag = \"1\" # set to 1 if the vCenter uses a self-signed cert\n" ++
        "datacenters = \"" := by
    decide
  simp only [cloudConfigNodes, execList, execNode_text, ok_bind, pure_eq_ok,
    execNode_field [] input.fields "SecretName" input.SecretName rfl,
    execNode_field [] input.fields "SecretNamespace" input.SecretNamespace rfl,
    execNode_field [] input.fields "Server" input.Server rfl,
    execNode_field [] input.fields "Datacenter" input.Datacenter rfl,
    execNode_field [] input.fields "ResourcePool" input.ResourcePool rfl,
    execNode_field [] input.fields "Folder" input.Folder rfl,
    execNode_field [] input.fields "Datastore" input.Datastore rfl,
    execNode_field [] input.fields "Network" input.Network rfl]
  rw [h1]
  simp only [cloudConfigDocument, String.append_assoc, String.append_empty]

/-- What `NewCloudConfig` returns: the rendered file and no error, on every input. -/
theorem NewCloudConfig_eq (input : CloudConfigInput) :
    NewCloudConfig input = (cloudConfigDocument input, none) := by
  have hnames : ([] : funcMap).map Prod.fst = [] := rfl
  simp only [NewCloudConfig, generateWithFuncs, hnames, parseTemplate_cloudConfig,
    execList_cloudConfigNodes]

/-! ## Test vectors -/

/-- The encoder on the test vectors of RFC 4648, section 10, and on a text with a
two-byte character. -/
theorem templateBase64Encode_vectors :
    templateBase64Encode "" = "" ∧ templateBase64Encode "f" = "Zg==" ∧
    templateBase64Encode "fo" = "Zm8=" ∧ templateBase64Encode "foo" = "Zm9v" ∧
    templateBase64Encode "foob" = "Zm9vYg==" ∧ templateBase64Encode "fooba" = "Zm9vYmE=" ∧
    templateBase64Encode "foobar" = "Zm9vYmFy" ∧ templateBase64Encode "hé" = "aMOp" := by
  decide

/-- The decoder on padded and on corrupt input. -/
theorem DecodeString_vectors :
    DecodeString "Zm9vYg==" = some [102, 111, 111, 98] ∧
    DecodeString "Zm9v\r\nYmE=" = some [102, 111, 111, 98, 97] ∧
    DecodeString "Zm9vY" = none ∧ DecodeString "Zg==Zm9v" = none ∧
    DecodeString "Zm9v Zm9v" = none := by
  decide

/-- The functions of package `strings` on small inputs. -/
theorem strings_vectors :
    stringsSplit "a\n\nb\n" "\n" = ["a", "", "b", ""] ∧ stringsSplit "" "\n" = [""] ∧
    stringsSplit "a, b, c" ", " = ["a", "b", "c"] ∧ stringsSplit "aaa" "aa" = ["", "a"] ∧
    stringsSplit "abc" "" = ["a", "b", "c"] ∧
    stringsJoin ["a", "b", "c"] ", " = "a, b, c" ∧ stringsJoin [] ", " = "" := by
  decide

/-- The indentation on small inputs; a negative indent is a panic. -/
theorem templateYAMLIndent_vectors :
    templateYAMLIndent 2 "a\nb" = .ok "  a\n  b" ∧
    templateYAMLIndent 2 "a\n" = .ok "  a\n  " ∧
    templateYAMLIndent 0 "a\nb" = .ok "a\nb" ∧
    templateYAMLIndent (-1) "a" = .error "strings: negative Repeat count" :=
  ⟨rfl, rfl, rfl, rfl⟩

set_option maxRecDepth 100000 in
/-- The parser refuses a template that names a function it was not given, as
`NewCloudConfig` would find if `cloudConfig` used `Base64Encode`. -/
theorem parseTemplate_unknown_function :
    parseTemplate [] "a: {{.Server | Base64Encode}}" =
      .error "function \"Base64Encode\" not defined" := by
  rfl

/-- Rendering fails on a field the input does not have. -/
theorem generateWithFuncs_unknown_field :
    generateWithFuncs "cloudprovider" "a: {{.Missing}}" [] sampleInit.fields =
      ("", some "template: cloudprovider: can't evaluate field Missing") := by
  decide

/-! ## The documents of the control-plane generators -/

/-- The document of a valid init input. -/
theorem NewControlPlane_valid (hdr : String) (input : ControlPlaneInput)
    (hvalid : input.validateCertificates = none) :
    NewControlPlane hdr input =
      ({ input with Header := hdr }, controlPlaneDocument { input with Header := hdr }, none) := by
  rw [NewControlPlane_eq, hvalid]

/-- The document of a valid join input. -/
theorem JoinControlPlane_valid (hdr : String) (input : ContolPlaneJoinInput)
    (hvalid : input.validateCertificates = none) :
    JoinControlPlane hdr input =
      ({ input with Header := hdr }, controlPlaneJoinDocument { input with Header := hdr },
        none) := by
  rw [JoinControlPlane_eq, hvalid]

/-- A line feed before every entry and one after the last is a line feed after every
entry and one before the first. -/
theorem concatAll_shift (f : String → String) (xs : List String) :
    concatAll (xs.map fun k => "\n" ++ f k) ++ "\n" =
      "\n" ++ concatAll (xs.map fun k => f k ++ "\n") := by
  induction xs with
  | nil => rfl
  | cons x xs ih =>
    simp only [List.map_cons, concatAll, String.append_assoc, ih]

/-- C11. For every valid init input and every valid join input with an empty
`SSHAuthorizedKeys` list, the document starts with the header line (the header and a line
feed), directly followed by two empty lines and then the line `write_files:`: no
`ssh_authorized_keys:` line and no marker of an empty list stands in between. -/
theorem documents_without_ssh_keys (hdr : String) (a : ControlPlaneInput)
    (b : ContolPlaneJoinInput) (ha : a.validateCertificates = none)
    (hb : b.validateCertificates = none) (hka : a.SSHAuthorizedKeys = [])
    (hkb : b.SSHAuthorizedKeys = []) :
    (∃ rest, (NewControlPlane hdr a).2.1 =
      hdr ++ "\n" ++ "\n" ++ "\n" ++ "write_files:\n" ++ rest) ∧
    (∃ rest, (JoinControlPlane hdr b).2.1 =
      hdr ++ "\n" ++ "\n" ++ "\n" ++ "write_files:\n" ++ rest) := by
  have hw : "\n\nwrite_files:\n" = "\n" ++ ("\n" ++ "write_files:\n") := by decide
  have hs : sshKeysBlock [] = "" := rfl
  refine ⟨⟨base64Entries a.CACert a.CAKey a.EtcdCACert a.EtcdCAKey a.FrontProxyCACert
      a.FrontProxyCAKey a.SaCert a.SaKey a.CloudConfig ++
      kubeadmInitTail a.ClusterConfiguration a.InitConfiguration, ?_⟩,
    ⟨base64Entries b.CACert b.CAKey b.EtcdCACert b.EtcdCAKey b.FrontProxyCACert
      b.FrontProxyCAKey b.SaCert b.SaKey b.CloudConfig ++
      kubeadmJoinTail b.JoinConfiguration, ?_⟩⟩
  · rw [NewControlPlane_valid hdr a ha]
    simp only [controlPlaneDocument, hka, hs, hw, String.append_assoc, String.empty_append]
  · rw [JoinControlPlane_valid hdr b hb]
    simp only [controlPlaneJoinDocument, hkb, hs, hw, String.append_assoc, String.empty_append]

theorem documents_without_ssh_keys_witness :
    ({ sampleInit with SSHAuthorizedKeys := [] } : ControlPlaneInput).validateCertificates = none ∧
    sampleJoin.validateCertificates = none ∧
    (∃ rest, (NewControlPlane "#cloud-config" { sampleInit with SSHAuthorizedKeys := [] }).2.1 =
      "#cloud-config" ++ "\n" ++ "\n" ++ "\n" ++ "write_files:\n" ++ rest) ∧
    (∃ rest, (JoinControlPlane "#cloud-config" sampleJoin).2.1 =
      "#cloud-config" ++ "\n" ++ "\n" ++ "\n" ++ "write_files:\n" ++ rest) :=
  ⟨by decide, by decide,
    documents_without_ssh_keys "#cloud-config" { sampleInit with SSHAuthorizedKeys := [] }
      sampleJoin (by decide) (by decide) rfl rfl⟩

/-- C12. For every valid init input with a non-empty list of keys, the document has,
directly after the header line, the line `ssh_authorized_keys:`, then for every key of
the list, in the list's order, a line `- "key"` with the key copied as it stands between
the double quotes, then an empty line and the line `write_files:`. -/
theorem NewControlPlane_ssh_keys (hdr : String) (input : ControlPlaneInput)
    (hvalid : input.validateCertificates = none) (hkeys : input.SSHAuthorizedKeys ≠ []) :
    ∃ rest, (NewControlPlane hdr input).2.1 =
      hdr ++ "\n" ++ "ssh_authorized_keys:\n" ++
      concatAll (input.SSHAuthorizedKeys.map fun k => "- \"" ++ k ++ "\"" ++ "\n") ++
      "\n" ++ "write_files:\n" ++ rest := by
  have hw : "\n\nwrite_files:\n" = "\n" ++ ("\n" ++ "write_files:\n") := by decide
  have hk : "ssh_authorized_keys:\n" = "ssh_authorized_keys:" ++ "\n" := by decide
  have hq : ∀ k : String, "\n- \"" ++ k ++ "\"" = "\n" ++ ("- \"" ++ k ++ "\"") := by
    intro k
    have : "\n- \"" = "\n" ++ "- \"" := by decide
    simp only [this, String.append_assoc]
  have hs : sshKeysBlock input.SSHAuthorizedKeys =
      "ssh_authorized_keys:" ++
        concatAll (input.SSHAuthorizedKeys.map fun k => "\n" ++ ("- \"" ++ k ++ "\"")) := by
    cases hl : input.SSHAuthorizedKeys with
    | nil => exact absurd hl hkeys
    | cons k ks => simp only [sshKeysBlock, List.isEmpty_cons, Bool.false_eq_true, if_false, hq]
  have hshift := concatAll_shift (fun k => "- \"" ++ k ++ "\"") input.SSHAuthorizedKeys
  simp only [String.append_assoc] at hshift
  refine ⟨base64Entries input.CACert input.CAKey input.EtcdCACert input.EtcdCAKey
    input.FrontProxyCACert input.FrontProxyCAKey input.SaCert input.SaKey input.CloudConfig ++
    kubeadmInitTail input.ClusterConfiguration input.InitConfiguration, ?_⟩
  rw [NewControlPlane_valid hdr input hvalid]
  simp only [controlPlaneDocument, hs, hw, hk, String.append_assoc]
  rw [← String.append_assoc (concatAll _) "\n", hshift]
  simp only [String.append_assoc]

theorem NewControlPlane_ssh_keys_witness :
    sampleInit.validateCertificates = none ∧ sampleInit.SSHAuthorizedKeys ≠ [] ∧
    ∃ rest, (NewControlPlane "#cloud-config" sampleInit).2.1 =
      "#cloud-config" ++ "\n" ++ "ssh_authorized_keys:\n" ++
      concatAll (sampleInit.SSHAuthorizedKeys.map fun k => "- \"" ++ k ++ "\"" ++ "\n") ++
      "\n" ++ "write_files:\n" ++ rest :=
  ⟨by decide, by decide, NewControlPlane_ssh_keys "#cloud-config" sampleInit (by decide)
    (by decide)⟩

/-- C13. For every valid init input and every valid join input, the document begins
with the constant `cloudConfigHeader` and a line feed; the value the caller had put in
the `Header` field of the input changes nothing in what is returned. -/
theorem documents_begin_with_header (hdr : String) (a : ControlPlaneInput)
    (b : ContolPlaneJoinInput) (ha : a.validateCertificates = none)
    (hb : b.validateCertificates = none) :
    (∃ rest, (NewControlPlane hdr a).2.1 = hdr ++ "\n" ++ rest) ∧
    (∃ rest, (JoinControlPlane hdr b).2.1 = hdr ++ "\n" ++ rest) ∧
    (∀ h, (NewControlPlane hdr { a with Header := h }).2 = (NewControlPlane hdr a).2) ∧
    (∀ h, (JoinControlPlane hdr { b with Header := h }).2 = (JoinControlPlane hdr b).2) := by
  refine ⟨⟨sshKeysBlock a.SSHAuthorizedKeys ++ "\n\nwrite_files:\n" ++
      base64Entries a.CACert a.CAKey a.EtcdCACert a.EtcdCAKey a.FrontProxyCACert
        a.FrontProxyCAKey a.SaCert a.SaKey a.CloudConfig ++
      kubeadmInitTail a.ClusterConfiguration a.InitConfiguration, ?_⟩,
    ⟨sshKeysBlock b.SSHAuthorizedKeys ++ "\n\nwrite_files:\n" ++
      base64Entries b.CACert b.CAKey b.EtcdCACert b.EtcdCAKey b.FrontProxyCACert
        b.FrontProxyCAKey b.SaCert b.SaKey b.CloudConfig ++
      kubeadmJoinTail b.JoinConfiguration, ?_⟩, ?_, ?_⟩
  · rw [NewControlPlane_valid hdr a ha]
    simp only [controlPlaneDocument, String.append_assoc]
  · rw [JoinControlPlane_valid hdr b hb]
    simp only [controlPlaneJoinDocument, String.append_assoc]
  · intro h
    rw [NewControlPlane_eq, NewControlPlane_eq, ControlPlaneInput.validateCertificates_header]
  · intro h
    rw [JoinControlPlane_eq, JoinControlPlane_eq,
      ContolPlaneJoinInput.validateCertificates_join_header]

theorem documents_begin_with_header_witness :
    sampleInit.validateCertificates = none ∧ sampleJoin.validateCertificates = none ∧
    (∃ rest, (NewControlPlane "#cloud-config" sampleInit).2.1 = "#cloud-config" ++ "\n" ++ rest) ∧
    (∃ rest, (JoinControlPlane "#cloud-config" sampleJoin).2.1 = "#cloud-config" ++ "\n" ++ rest) ∧
    (∀ h, (NewControlPlane "#cloud-config" { sampleInit with Header := h }).2 =
      (NewControlPlane "#cloud-config" sampleInit).2) ∧
    (∀ h, (JoinControlPlane "#cloud-config" { sampleJoin with Header := h }).2 =
      (JoinControlPlane "#cloud-config" sampleJoin).2) :=
  ⟨by decide, by decide,
    documents_begin_with_header "#cloud-config" sampleInit sampleJoin (by decide) (by decide)⟩

/-- C14. For every input, one with all fields empty included, `NewCloudConfig` returns
no error and the INI document with the sections `[Global]`, `[VirtualCenter "<Server>"]`,
`[Workspace]`, `[Disk]` and `[Network]` in this order, every field standing as it is
between double quotes under its key: `Datacenter` under `datacenters` and `datacenter`,
`Server` in the name of the `VirtualCenter` section and under `server`. Nothing is
encoded or changed. -/
theorem NewCloudConfig_document (input : CloudConfigInput) :
    NewCloudConfig input =
      ("[Global]\n" ++
        "secret-name = \"" ++ input.SecretName ++ "\"\n" ++
        "secret-namespace = \"" ++ input.SecretNamespace ++ "\"\n" ++
        "insecure-flag = \"1\" # set to 1 if the vCenter uses a self-signed cert\n" ++
        "datacenters = \"" ++ input.Datacenter ++ "\"\n" ++
        "\n" ++
        "[VirtualCenter \"" ++ input.Server ++ "\"]\n" ++
        "\n" ++
        "[Workspace]\n" ++
        "server = \"" ++ input.Server ++ "\"\n" ++
        "datacenter = \"" ++ input.Datacenter ++ "\"\n" ++
        "folder = \"" ++ input.Folder ++ "\"\n" ++
        "default-datastore = \"" ++ input.Datastore ++ "\"\n" ++
        "resourcepool-path = \"" ++ input.ResourcePool ++ "\"\n" ++
        "\n" ++
        "[Disk]\n" ++
        "scsicontrollertype = pvscsi\n" ++
        "\n" ++
        "[Network]\n" ++
        "public-network = \"" ++ input.Network ++ "\"\n",
       none) := by
  have h1 : "[Global]\nsecret-name = \"" = "[Global]\n" ++ "secret-name = \"" := by decide
  have h2 : "\"\nsecret-namespace = \"" = "\"\n" ++ "secret-namespace = \"" := by decide
  have h3 : "\"\ninsecure-flag = \"1\" # set to 1 if the vCenter uses a self-signed cert\n" =
      "\"\n" ++ "insecure-flag = \"1\" # set to 1 if the vCenter uses a self-signed cert\n" := by
    decide
  have h4 : "\"\n\n[VirtualCenter \"" = "\"\n" ++ ("\n" ++ "[VirtualCenter \"") := by decide
  have h5 : "\"]\n\n[Workspace]\nserver = \"" =
      "\"]\n" ++ ("\n" ++ ("[Workspace]\n" ++ "server = \"")) := by decide
  have h6 : "\"\ndatacenter = \"" = "\"\n" ++ "datacenter = \"" := by decide
  have h7 : "\"\nfolder = \"" = "\"\n" ++ "folder = \"" := by decide
  have h8 : "\"\ndefault-datastore = \"" = "\"\n" ++ "default-datastore = \"" := by decide
  have h9 : "\"\nresourcepool-path = \"" = "\"\n" ++ "resourcepool-path = \"" := by decide
  have h10 : "\"\n\n[Disk]\nscsicontrollertype = pvscsi\n\n[Network]\npublic-network = \"" =
      "\"\n" ++ ("\n" ++ ("[Disk]\n" ++ ("scsicontrollertype = pvscsi\n" ++
        ("\n" ++ ("[Network]\n" ++ "public-network = \""))))) := by decide
  rw [NewCloudConfig_eq]
  simp only [cloudConfigDocument, h1, h2, h3, h4, h5, h6, h7, h8, h9, h10,
    String.append_assoc]

set_option maxRecDepth 100000 in
/-- The generators write the header into the caller's structure, also when they
return an error: the sample inputs, whose `Header` is empty, hold `#cloud-config` after
the call. -/
theorem NewControlPlane_mutates_header :
    (NewControlPlane "#cloud-config" sampleInit).1.Header ≠ sampleInit.Header ∧
    (NewControlPlane "#cloud-config" { sampleInit with EtcdCAKey := "" }).1.Header ≠
      ({ sampleInit with EtcdCAKey := "" } : ControlPlaneInput).Header ∧
    (JoinControlPlane "#cloud-config" sampleJoin).1.Header ≠ sampleJoin.Header := by
  decide

/-- C16, amended. After `NewControlPlane` or `JoinControlPlane` returns, with a document
or with an error, the `Header` field of the input holds `cloudConfigHeader` and every
other field holds the value it held before the call. -/
theorem generators_write_header_only (hdr : String) (a : ControlPlaneInput)
    (b : ContolPlaneJoinInput) :
    (NewControlPlane hdr a).1 = { a with Header := hdr } ∧
    (JoinControlPlane hdr b).1 = { b with Header := hdr } := by
  constructor
  · simp only [NewControlPlane]
    split
    · rfl
    · split <;> rfl
  · simp only [JoinControlPlane]
    split
    · rfl
    · split <;> rfl

/-- C18. For every valid init input the document ends with the `/tmp/kubeadm.yaml`
entry, whose block-scalar body is the line of six spaces and `---`, then
`templateYAMLIndent 6 ClusterConfiguration`, then the same separator line, then
`templateYAMLIndent 6 InitConfiguration`; after it come the lines `kubeadm:`,
`  operation: init` and `  config: /tmp/kubeadm.yaml`, the path the entry was written
under, and an empty line. -/
theorem NewControlPlane_kubeadm_tail (hdr : String) (input : ControlPlaneInput)
    (hvalid : input.validateCertificates = none) :
    ∃ pre cluster init,
      templateYAMLIndent 6 input.ClusterConfiguration = .ok cluster ∧
      templateYAMLIndent 6 input.InitConfiguration = .ok init ∧
      (NewControlPlane hdr input).2.1 =
        pre ++ "-   path: " ++ "/tmp/kubeadm.yaml" ++ "\n" ++
        "    owner: root:root\n" ++ "\tpermissions: '0640'\n" ++ "\tcontent: |\n" ++
        "      ---\n" ++ cluster ++ "\n" ++
        "      ---\n" ++ init ++ "\n" ++
        "kubeadm:\n" ++ "  operation: init\n" ++ "  config: " ++ "/tmp/kubeadm.yaml" ++ "\n" ++
        "\n" := by
  have h1 : "-   path: /tmp/kubeadm.yaml\n    owner: root:root\n\tpermissions: '0640'\n\tcontent: |\n" =
      "-   path: " ++ ("/tmp/kubeadm.yaml" ++ ("\n" ++ ("    owner: root:root\n" ++
        ("\tpermissions: '0640'\n" ++ "\tcontent: |\n")))) := by decide
  have h2 : "\n      ---\n" = "\n" ++ "      ---\n" := by decide
  have h3 : "\nkubeadm:\n  operation: init\n  config: /tmp/kubeadm.yaml\n\n" =
      "\n" ++ ("kubeadm:\n" ++ ("  operation: init\n" ++ ("  config: " ++
        ("/tmp/kubeadm.yaml" ++ ("\n" ++ "\n"))))) := by decide
  refine ⟨hdr ++ "\n" ++ sshKeysBlock input.SSHAuthorizedKeys ++ "\n\nwrite_files:\n" ++
      base64Entries input.CACert input.CAKey input.EtcdCACert input.EtcdCAKey
        input.FrontProxyCACert input.FrontProxyCAKey input.SaCert input.SaKey input.CloudConfig,
    indentText 6 input.ClusterConfiguration, indentText 6 input.InitConfiguration,
    templateYAMLIndent_six _, templateYAMLIndent_six _, ?_⟩
  rw [NewControlPlane_valid hdr input hvalid]
  simp only [controlPlaneDocument, kubeadmInitTail, h1, h2, h3, String.append_assoc]

theorem NewControlPlane_kubeadm_tail_witness :
    sampleInit.validateCertificates = none ∧
    ∃ pre cluster init,
      templateYAMLIndent 6 sampleInit.ClusterConfiguration = .ok cluster ∧
      templateYAMLIndent 6 sampleInit.InitConfiguration = .ok init ∧
      (NewControlPlane "#cloud-config" sampleInit).2.1 =
        pre ++ "-   path: " ++ "/tmp/kubeadm.yaml" ++ "\n" ++
        "    owner: root:root\n" ++ "\tpermissions: '0640'\n" ++ "\tcontent: |\n" ++
        "      ---\n" ++ cluster ++ "\n" ++
        "      ---\n" ++ init ++ "\n" ++
        "kubeadm:\n" ++ "  operation: init\n" ++ "  config: " ++ "/tmp/kubeadm.yaml" ++ "\n" ++
        "\n" :=
  ⟨by decide, NewControlPlane_kubeadm_tail "#cloud-config" sampleInit (by decide)⟩

/-- Two texts that start with different texts of the same length are different. -/
theorem append_ne_of_take_ne (p q x y : String) (n : Nat) (hp : p.data.length = n)
    (hq : q.data.length = n) (hne : p ≠ q) : p ++ x ≠ q ++ y := by
  intro h
  apply hne
  apply String.ext
  have hd := congrArg (fun s => s.data.take n) h
  simp only [String.data_append] at hd
  rwa [List.take_left' hp, List.take_left' hq] at hd

/-- C19. For a valid init input and a valid join input that agree on the keys, the eight
credential fields and `CloudConfig`, the two documents share their text from the header
up to and including the `/etc/kubernetes/vsphere.conf` entry. What follows differs: in
the init document the `/tmp/kubeadm.yaml` entry, in the join document the entry
`/tmp/kubeadm-controlplane-join-config.yaml` with `templateYAMLIndent 6 JoinConfiguration`
as its body, and the directive block with the operation `join` and that same path. -/
theorem init_join_documents_common (hdr : String) (a : ControlPlaneInput)
    (b : ContolPlaneJoinInput) (ha : a.validateCertificates = none)
    (hb : b.validateCertificates = none)
    (hkeys : a.SSHAuthorizedKeys = b.SSHAuthorizedKeys)
    (h1 : a.CACert = b.CACert) (h2 : a.CAKey = b.CAKey)
    (h3 : a.EtcdCACert = b.EtcdCACert) (h4 : a.EtcdCAKey = b.EtcdCAKey)
    (h5 : a.FrontProxyCACert = b.FrontProxyCACert)
    (h6 : a.FrontProxyCAKey = b.FrontProxyCAKey)
    (h7 : a.SaCert = b.SaCert) (h8 : a.SaKey = b.SaKey)
    (hcc : a.CloudConfig = b.CloudConfig) :
    ∃ pre initTail joinTail join,
      templateYAMLIndent 6 b.JoinConfiguration = .ok join ∧
      (NewControlPlane hdr a).2.1 =
        hdr ++ "\n" ++ pre ++
        base64Entry "/etc/kubernetes/vsphere.conf" "0600" (templateBase64Encode a.CloudConfig) ++
        initTail ∧
      (JoinControlPlane hdr b).2.1 =
        hdr ++ "\n" ++ pre ++
        base64Entry "/etc/kubernetes/vsphere.conf" "0600" (templateBase64Encode a.CloudConfig) ++
        joinTail ∧
      initTail ≠ joinTail ∧
      joinTail =
        "-   path: " ++ "/tmp/kubeadm-controlplane-join-config.yaml" ++ "\n" ++
        "    owner: root:root\n" ++ "    permissions: '0640'\n" ++ "    content: |\n" ++
        join ++ "\n" ++
        "kubeadm:\n" ++ "  operation: join\n" ++
        "  config: " ++ "/tmp/kubeadm-controlplane-join-config.yaml" ++ "\n" := by
  have e1 : "-   path: /tmp/kubeadm-controlplane-join-config.yaml\n    owner: root:root\n" =
      "-   path: " ++ ("/tmp/kubeadm-controlplane-join-config.yaml" ++ ("\n" ++
        "    owner: root:root\n")) := by decide
  have e2 : "    permissions: '0640'\n    content: |\n" =
      "    permissions: '0640'\n" ++ "    content: |\n" := by decide
  have e3 : "\nkubeadm:\n  operation: join\n  config: /tmp/kubeadm-controlplane-join-config.yaml\n" =
      "\n" ++ ("kubeadm:\n" ++ ("  operation: join\n" ++ ("  config: " ++
        ("/tmp/kubeadm-controlplane-join-config.yaml" ++ "\n")))) := by decide
  have e4 : "-   path: /tmp/kubeadm.yaml\n    owner: root:root\n\tpermissions: '0640'\n\tcontent: |\n" =
      "-   path: /tmp/kubeadm." ++
        "yaml\n    owner: root:root\n\tpermissions: '0640'\n\tcontent: |\n" := by decide
  have e5 : "-   path: /tmp/kubeadm-controlplane-join-config.yaml\n    owner: root:root\n" =
      "-   path: /tmp/kubeadm-" ++ "controlplane-join-config.yaml\n    owner: root:root\n" := by
    decide
  refine ⟨sshKeysBlock a.SSHAuthorizedKeys ++ "\n\nwrite_files:\n" ++
      base64Entry "/etc/test/pki/ca.crt" "0640" (templateBase64Encode a.CACert) ++
      base64Entry "/etc/test/pki/ca.key" "0600" (templateBase64Encode a.CAKey) ++
      base64Entry "/etc/test/pki/etcd/ca.crt" "0640" (templateBase64Encode a.EtcdCACert) ++
      base64Entry "/etc/test/pki/etcd/ca.key" "0600" (templateBase64Encode a.EtcdCAKey) ++
      base64Entry "/etc/test/pki/front-proxy-ca.crt" "0640"
        (templateBase64Encode a.FrontProxyCACert) ++
      base64Entry "/etc/test/pki/front-proxy-ca.key" "0600"
        (templateBase64Encode a.FrontProxyCAKey) ++
      base64Entry "/etc/test/pki/sa.pub" "0640" (templateBase64Encode a.SaCert) ++
      base64Entry "/etc/test/pki/sa.key" "0600" (templateBase64Encode a.SaKey),
    kubeadmInitTail a.ClusterConfiguration a.InitConfiguration,
    kubeadmJoinTail b.JoinConfiguration, indentText 6 b.JoinConfiguration,
    templateYAMLIndent_six _, ?_, ?_, ?_, ?_⟩
  · rw [NewControlPlane_valid hdr a ha]
    simp only [controlPlaneDocument, base64Entries, String.append_assoc]
  · rw [JoinControlPlane_valid hdr b hb]
    simp only [controlPlaneJoinDocument, base64Entries, String.append_assoc,
      ← hkeys, ← h1, ← h2, ← h3, ← h4, ← h5, ← h6, ← h7, ← h8, ← hcc]
  · simp only [kubeadmInitTail, kubeadmJoinTail, e4, e5, String.append_assoc]
    exact append_ne_of_take_ne _ _ _ _ 23 (by decide) (by decide) (by decide)
  · simp only [kubeadmJoinTail, e1, e2, e3, String.append_assoc]

theorem init_join_documents_common_witness :
    sampleInit.validateCertificates = none ∧
    ({ sampleJoin with SSHAuthorizedKeys := ["ssh-rsa AAAA"] } :
      ContolPlaneJoinInput).validateCertificates = none ∧
    ∃ pre initTail joinTail join,
      templateYAMLIndent 6 sampleJoin.JoinConfiguration = .ok join ∧
      (NewControlPlane "#cloud-config" sampleInit).2.1 =
        "#cloud-config" ++ "\n" ++ pre ++
        base64Entry "/etc/kubernetes/vsphere.conf" "0600"
          (templateBase64Encode sampleInit.CloudConfig) ++
        initTail ∧
      (JoinControlPlane "#cloud-config"
          { sampleJoin with SSHAuthorizedKeys := ["ssh-rsa AAAA"] }).2.1 =
        "#cloud-config" ++ "\n" ++ pre ++
        base64Entry "/etc/kubernetes/vsphere.conf" "0600"
          (templateBase64Encode sampleInit.CloudConfig) ++
        joinTail ∧
      initTail ≠ joinTail ∧
      joinTail =
        "-   path: " ++ "/tmp/kubeadm-controlplane-join-config.yaml" ++ "\n" ++
        "    owner: root:root\n" ++ "    permissions: '0640'\n" ++ "    content: |\n" ++
        join ++ "\n" ++
        "kubeadm:\n" ++ "  operation: join\n" ++
        "  config: " ++ "/tmp/kubeadm-controlplane-join-config.yaml" ++ "\n" :=
  ⟨by decide, by decide,
    init_join_documents_common "#cloud-config" sampleInit
      { sampleJoin with SSHAuthorizedKeys := ["ssh-rsa AAAA"] } (by decide) (by decide)
      rfl rfl rfl rfl rfl rfl rfl rfl rfl rfl⟩

/-! ## Indentation composes -/

theorem spaces_append (n m : Nat) : spaces n ++ spaces m = spaces (n + m) := by
  apply String.ext
  simp only [String.data_append, spaces]
  exact (List.replicate_add n m ' ').symm

/-- Indenting lines that carry an indent already. -/
theorem stringsJoin_indent_map (pad inner sep : String) (lines : List String)
    (hne : lines ≠ []) :
    pad ++ stringsJoin (lines.map (inner ++ ·)) (sep ++ pad) =
      (pad ++ inner) ++ stringsJoin lines (sep ++ (pad ++ inner)) := by
  induction lines with
  | nil => exact absurd rfl hne
  | cons a rest ih =>
    cases rest with
    | nil => simp only [List.map_cons, List.map_nil, stringsJoin, String.append_assoc]
    | cons b rest =>
      have h := ih (by simp)
      simp only [List.map_cons] at h
      simp only [List.map_cons, stringsJoin, String.append_assoc]
      rw [h]
      simp only [String.append_assoc]

theorem stringsSplit_nl_ne_nil (s : String) : stringsSplit s "\n" ≠ [] := by
  rw [stringsSplit_nl]
  simpa using splitAux_nl_ne_nil s.data

/-- An indent of `n` over an indent of `m` is an indent of `n + m`. -/
theorem indentText_indentText (n m : Nat) (s : String) :
    indentText n (indentText m s) = indentText (n + m) s := by
  have h := stringsSplit_indent m s
  simp only [indentText] at h ⊢
  rw [h, stringsJoin_indent_map _ _ _ _ (stringsSplit_nl_ne_nil s), spaces_append]

/-- An indent of nothing changes nothing. -/
theorem indentText_zero (s : String) : indentText 0 s = s := by
  have h0 : spaces 0 = "" := rfl
  simp only [indentText, h0, String.empty_append, String.append_empty]
  exact stringsJoin_stringsSplit_nl s

/-- C20. Indentation composes additively: for all indents `i ≥ 0` and `j ≥ 0` and every
text `s`, `templateYAMLIndent j s` returns a text, indenting that text by `i` returns
what `templateYAMLIndent (i + j) s` returns, and `templateYAMLIndent 0 s` returns `s`. -/
theorem templateYAMLIndent_add (i j : Int) (s : String) (hi : 0 ≤ i) (hj : 0 ≤ j) :
    ∃ inner out, templateYAMLIndent j s = .ok inner ∧
      templateYAMLIndent i inner = .ok out ∧
      templateYAMLIndent (i + j) s = .ok out ∧
      templateYAMLIndent 0 s = .ok s := by
  refine ⟨indentText j.toNat s, indentText (i + j).toNat s, templateYAMLIndent_ok j s hj, ?_,
    templateYAMLIndent_ok (i + j) s (Int.add_nonneg hi hj), ?_⟩
  · rw [templateYAMLIndent_ok i _ hi, Int.toNat_add hi hj]
    exact congrArg Except.ok (indentText_indentText _ _ _)
  · rw [templateYAMLIndent_ok 0 s (le_refl 0)]
    exact congrArg Except.ok (indentText_zero s)

theorem templateYAMLIndent_add_witness :
    (0 : Int) ≤ 2 ∧ (0 : Int) ≤ 4 ∧
    ∃ inner out, templateYAMLIndent 4 "a:\n  b: c\n" = .ok inner ∧
      templateYAMLIndent 2 inner = .ok out ∧
      templateYAMLIndent (2 + 4) "a:\n  b: c\n" = .ok out ∧
      templateYAMLIndent 0 "a:\n  b: c\n" = .ok "a:\n  b: c\n" :=
  ⟨by decide, by decide, templateYAMLIndent_add 2 4 "a:\n  b: c\n" (by decide) (by decide)⟩

/-! ## Where the code departs from the specification -/

/-- In the document of every valid init input the `permissions:` and `content: |` lines
of the `/tmp/kubeadm.yaml` entry start with a tab character. -/
theorem NewControlPlane_kubeadm_keys (hdr : String) (input : ControlPlaneInput)
    (hvalid : input.validateCertificates = none) :
    ∃ pre post, (NewControlPlane hdr input).2.1 =
      pre ++ "-   path: /tmp/kubeadm.yaml\n" ++ "    owner: root:root\n" ++
      "\tpermissions: '0640'\n" ++ "\tcontent: |\n" ++ post := by
  have h1 : "-   path: /tmp/kubeadm.yaml\n    owner: root:root\n\tpermissions: '0640'\n\tcontent: |\n" =
      "-   path: /tmp/kubeadm.yaml\n" ++ ("    owner: root:root\n" ++
        ("\tpermissions: '0640'\n" ++ "\tcontent: |\n")) := by decide
  refine ⟨hdr ++ "\n" ++ sshKeysBlock input.SSHAuthorizedKeys ++ "\n\nwrite_files:\n" ++
      base64Entries input.CACert input.CAKey input.EtcdCACert input.EtcdCAKey
        input.FrontProxyCACert input.FrontProxyCAKey input.SaCert input.SaKey input.CloudConfig,
    "      ---\n" ++ indentText 6 input.ClusterConfiguration ++ "\n      ---\n" ++
      indentText 6 input.InitConfiguration ++
      "\nkubeadm:\n  operation: init\n  config: /tmp/kubeadm.yaml\n\n", ?_⟩
  rw [NewControlPlane_valid hdr input hvalid]
  simp only [controlPlaneDocument, kubeadmInitTail, h1, String.append_assoc]

/-- In the document of every valid join input the same lines of the entry
`/tmp/kubeadm-controlplane-join-config.yaml` start with four spaces. -/
theorem JoinControlPlane_kubeadm_keys (hdr : String) (input : ContolPlaneJoinInput)
    (hvalid : input.validateCertificates = none) :
    ∃ pre post, (JoinControlPlane hdr input).2.1 =
      pre ++ "-   path: /tmp/kubeadm-controlplane-join-config.yaml\n" ++
      "    owner: root:root\n" ++ "    permissions: '0640'\n" ++ "    content: |\n" ++ post := by
  have h1 : "-   path: /tmp/kubeadm-controlplane-join-config.yaml\n    owner: root:root\n" =
      "-   path: /tmp/kubeadm-controlplane-join-config.yaml\n" ++ "    owner: root:root\n" := by
    decide
  have h2 : "    permissions: '0640'\n    content: |\n" =
      "    permissions: '0640'\n" ++ "    content: |\n" := by decide
  refine ⟨hdr ++ "\n" ++ sshKeysBlock input.SSHAuthorizedKeys ++ "\n\nwrite_files:\n" ++
      base64Entries input.CACert input.CAKey input.EtcdCACert input.EtcdCAKey
        input.FrontProxyCACert input.FrontProxyCAKey input.SaCert input.SaKey input.CloudConfig,
    indentText 6 input.JoinConfiguration ++
      "\nkubeadm:\n  operation: join\n  config: /tmp/kubeadm-controlplane-join-config.yaml\n",
    ?_⟩
  rw [JoinControlPlane_valid hdr input hvalid]
  simp only [controlPlaneJoinDocument, kubeadmJoinTail, h1, h2, String.append_assoc]

set_option maxRecDepth 100000 in
/-- C15, at the sample init input: the `/tmp/kubeadm.yaml` entry of the document has its
`permissions:` and `content: |` lines indented by a tab, not by four spaces, so the
document holds tab characters; they come from the text of `controlPlaneCloudInit`. The
text of `controlPlaneJoinCloudInit` has no tab. -/
theorem NewControlPlane_kubeadm_entry_tabs :
    (∃ pre post, (NewControlPlane "#cloud-config" sampleInit).2.1 =
      pre ++ "-   path: /tmp/kubeadm.yaml\n" ++ "    owner: root:root\n" ++
      "\tpermissions: '0640'\n" ++ "\tcontent: |\n" ++ post) ∧
    '\t' ∈ (NewControlPlane "#cloud-config" sampleInit).2.1.data ∧
    '\t' ∈ controlPlaneCloudInit.data ∧
    '\t' ∉ controlPlaneJoinCloudInit.data ∧
    '\t' ∉ (JoinControlPlane "#cloud-config" sampleJoin).2.1.data :=
  ⟨NewControlPlane_kubeadm_keys "#cloud-config" sampleInit (by decide), by decide, by decide,
    by decide, by decide⟩

/-- Both control-plane generators wrap a validation error in the same words. -/
theorem validation_context_same (hdr : String) (a : ControlPlaneInput)
    (b : ContolPlaneJoinInput) :
    (∀ cause, a.validateCertificates = some cause →
      (NewControlPlane hdr a).2.2 = some ("ControlPlaneInput is invalid" ++ ": " ++ cause)) ∧
    (∀ cause, b.validateCertificates = some cause →
      (JoinControlPlane hdr b).2.2 = some ("ControlPlaneInput is invalid" ++ ": " ++ cause)) := by
  constructor
  · intro cause h
    rw [NewControlPlane_eq, h]
    rfl
  · intro cause h
    rw [JoinControlPlane_eq, h]
    rfl

/-- C17, at the sample inputs with `EtcdCAKey` emptied: `NewControlPlane` and
`JoinControlPlane` wrap the validation error in the same context,
`ControlPlaneInput is invalid`; only the wrapped messages differ. -/
theorem validation_context_shared :
    (NewControlPlane "#cloud-config" { sampleInit with EtcdCAKey := "" }).2 =
      ("", some ("ControlPlaneInput is invalid" ++ ": " ++
        "ETCD CA cert material in the ControlPlaneInput is  missing cert/key")) ∧
    (JoinControlPlane "#cloud-config" { sampleJoin with EtcdCAKey := "" }).2 =
      ("", some ("ControlPlaneInput is invalid" ++ ": " ++
        "ETCD cert material in the ContolPlaneJoinInput is  missing cert/key")) := by
  decide

end Userdata
